import Mathlib

/-!
Verification of the Optimisely cloud-SDK security scanning pipeline.

The definitions below are a shallow embedding of the TypeScript sources:
the rule engine (`SecurityScanner` : `scan`, `getEnabledRules`,
`generateComplianceStatus`, `generateSummary`, `calculateRiskScore`,
`determineSecurityPosture`), the report renderers (`SecurityReporter` :
`generateCSV`, `generateSARIF`, `getSarifLevel`) and the built-in rule
catalog (`SecurityRules`).  JavaScript `number` arithmetic in the risk
score is modelled over `ℚ` with `Math.round` as `⌊q + 1/2⌋`; promise
rejection of a rule's `check` is modelled by the `CheckOutcome.err`
constructor; `Date` values are carried as opaque ISO strings.
-/

namespace Optimisely

/-- Severity scale (`SecuritySeverity` in `types.ts`). -/
inductive SecuritySeverity
  | low
  | medium
  | high
  | critical
deriving DecidableEq

/-- `ComplianceFramework` from `types.ts`. -/
structure ComplianceFramework where
  name : String
  requirement : String
  description : String
deriving DecidableEq

/-- The `finding` payload of a `SecurityRuleResult` (`types.ts`).  The
free-form `evidence` record is carried as a string association list; no
verified property inspects it. -/
structure RuleFinding where
  description : String
  evidence : List (String × String)
  recommendation : String
deriving DecidableEq

/-- `SecurityRuleResult` from `types.ts`: `passed` plus an optional finding. -/
structure SecurityRuleResult where
  passed : Bool
  finding : Option RuleFinding
deriving DecidableEq

/-- Outcome of awaiting `rule.check(resource, context)`: the promise either
rejects (`err`, a thrown error) or resolves to a `SecurityRuleResult`. -/
inductive CheckOutcome
  | err
  | ok (result : SecurityRuleResult)
deriving DecidableEq

/-- Free-form JSON-like configuration value (`Record<string, any>` fields). -/
inductive ConfigValue
  | null
  | bool (b : Bool)
  | num (n : Int)
  | str (s : String)
  | arr (elems : List ConfigValue)
  | obj (fields : List (String × ConfigValue))

/-- `CloudResource` from `types.ts`. -/
structure CloudResource where
  id : String
  name : String
  type : String
  provider : String
  region : String
  tags : Option (List (String × String))
  configuration : List (String × ConfigValue)
  metadata : Option (List (String × ConfigValue))

/-- `SecurityScanContext` from `types.ts`.  The opaque `credentials` value is
not modelled: neither the engine nor any property reads it. -/
structure SecurityScanContext where
  provider : String
  region : String
  accountId : Option String
  subscriptionId : Option String
  projectId : Option String
  allResources : List CloudResource

/-- The `remediation` payload.  The rule objects in `rules.ts` populate
`description`, `steps`, `automatable` and sometimes `terraform`; the
vulnerability's remediation is the very same object (the scanner copies the
rule's remediation by reference), so one structure serves both shapes. -/
structure Remediation where
  description : String
  steps : List String
  automatable : Bool
  manual : Option (List String)
  automated : Option (List String)
  terraform : Option String
deriving DecidableEq

/-- `SecurityRule` from `types.ts`; `check` is the rule's predicate. -/
structure SecurityRule where
  id : String
  name : String
  description : String
  severity : SecuritySeverity
  category : String
  provider : String
  resourceTypes : List String
  enabled : Bool
  check : CloudResource → SecurityScanContext → CheckOutcome
  remediation : Remediation
  references : List String
  complianceFrameworks : List ComplianceFramework
  tags : List String

/-- `SecurityVulnerability` from `types.ts`, restricted to the fields the
scanner actually writes (`cwe`/`cve`/`cvss` are never populated).
`firstDetected`/`lastSeen` carry the ISO timestamp string of the scan. -/
structure SecurityVulnerability where
  id : String
  title : String
  description : String
  severity : SecuritySeverity
  category : String
  resourceId : String
  resourceType : String
  resourceName : String
  region : String
  provider : String
  recommendation : String
  remediation : Remediation
  references : List String
  complianceFrameworks : List ComplianceFramework
  evidence : List (String × String)
  firstDetected : String
  lastSeen : String
  status : String
  tags : List String
deriving DecidableEq

/-- `SecurityScanOptions` from `types.ts`. -/
structure SecurityScanOptions where
  provider : String
  regions : Option (List String)
  severity : Option (List SecuritySeverity)
  categories : Option (List String)
  includeCompliance : Option Bool
  outputFormat : Option String
  outputFile : Option String
  verbose : Option Bool

/-- The `rules` section of `SecurityConfig` (`types.ts`). -/
structure RulesOverride where
  enabled : List String
  disabled : List String
  customRules : Option (List SecurityRule)

/-- `SecurityConfig` from `types.ts`; only `rules` influences the engine. -/
structure SecurityConfig where
  rules : Option RulesOverride

/-- Per-severity counters of `SecurityScanResult.severityBreakdown`. -/
structure SeverityBreakdown where
  critical : Nat
  high : Nat
  medium : Nat
  low : Nat
deriving DecidableEq

/-- One per-framework record of `SecurityScanResult.complianceStatus`. -/
structure FrameworkStatus where
  totalChecks : Int
  passedChecks : Int
  failedChecks : Int
  score : Int
deriving DecidableEq

/-- The `summary` block of `SecurityScanResult`. -/
structure ScanSummary where
  topVulnerabilities : List SecurityVulnerability
  criticalFindings : List SecurityVulnerability
  quickWins : List SecurityVulnerability
  riskScore : Int
  securityPosture : String
deriving DecidableEq

/-- The `resources` counter block of `SecurityScanResult`. -/
structure ResourceCounts where
  scanned : Nat
  vulnerable : Nat
  compliant : Int
  nonCompliant : Nat
deriving DecidableEq

/-- Rule counters inside `SecurityScanResult.metadata`. -/
structure RuleCounts where
  total : Nat
  enabled : Nat
deriving DecidableEq

/-- The `metadata` block of `SecurityScanResult`. -/
structure ScanMetadata where
  scanner : String
  version : String
  rules : RuleCounts
deriving DecidableEq

/-- `SecurityScanResult` from `types.ts`.  JavaScript objects used as maps
(`categoryBreakdown`, `complianceStatus`) become insertion-ordered
association lists. -/
structure SecurityScanResult where
  timestamp : String
  provider : String
  regions : List String
  totalResources : Nat
  totalVulnerabilities : Nat
  severityBreakdown : SeverityBreakdown
  categoryBreakdown : List (String × Nat)
  vulnerabilities : List SecurityVulnerability
  complianceStatus : List (String × FrameworkStatus)
  summary : ScanSummary
  resources : ResourceCounts
  scanDuration : Nat
  metadata : ScanMetadata
deriving DecidableEq

/-! ### Generic list helpers used by the embedding -/

/-- Concatenation of the lists produced for each element, in order; the shape
of the engine's nested `for` loops. -/
def concatMap (f : α → List β) : List α → List β
  | [] => []
  | a :: as => f a ++ concatMap f as

/-- First-match lookup in an insertion-ordered association list (JavaScript
object property read `m[k]`). -/
def assocLookup (m : List (String × α)) (k : String) : Option α :=
  match m with
  | [] => none
  | (k', v) :: rest => if k' == k then some v else assocLookup rest k

/-- Replace the value of the first binding of `k` (JavaScript object property
write on an existing key). -/
def assocUpdate (m : List (String × α)) (k : String) (v : α) : List (String × α) :=
  match m with
  | [] => []
  | (k', v') :: rest =>
      if k' == k then (k', v) :: rest else (k', v') :: assocUpdate rest k v

/-! ### The scan engine (`SecurityScanner`, scanner.ts) -/

/-- The serialized form of a severity (they are plain strings in TypeScript). -/
def severityToString : SecuritySeverity → String
  | .low => "low"
  | .medium => "medium"
  | .high => "high"
  | .critical => "critical"

/-- The `if (severities?.length)` stage of `SecurityScanner.getEnabledRules`:
the filter applies only when the option is present with a non-empty list
(JavaScript truthiness of `severities?.length`). -/
def filterBySeverities (severities : Option (List SecuritySeverity))
    (fr : List SecurityRule) : List SecurityRule :=
  match severities with
  | some l => if l.length != 0 then fr.filter (fun rule => l.contains rule.severity) else fr
  | none => fr

/-- The `if (categories?.length)` stage of `getEnabledRules`. -/
def filterByCategories (categories : Option (List String))
    (fr : List SecurityRule) : List SecurityRule :=
  match categories with
  | some l => if l.length != 0 then fr.filter (fun rule => l.contains rule.category) else fr
  | none => fr

/-- The `if (this.config.rules?.enabled?.length)` allow-list stage of
`getEnabledRules`. -/
def filterByEnabledOverride (rulesOverride : Option RulesOverride)
    (fr : List SecurityRule) : List SecurityRule :=
  match rulesOverride with
  | some o => if o.enabled.length != 0 then fr.filter (fun rule => o.enabled.contains rule.id) else fr
  | none => fr

/-- The `if (this.config.rules?.disabled?.length)` deny-list stage of
`getEnabledRules`. -/
def filterByDisabledOverride (rulesOverride : Option RulesOverride)
    (fr : List SecurityRule) : List SecurityRule :=
  match rulesOverride with
  | some o => if o.disabled.length != 0 then fr.filter (fun rule => !(o.disabled.contains rule.id)) else fr
  | none => fr

/-- `SecurityScanner.getEnabledRules`: the enabled/provider filter followed
by the four successive reassignments of `filteredRules` (severity filter,
category filter, config allow-list, config deny-list, in source order). -/
def getEnabledRules (rules : List SecurityRule) (provider : String)
    (severities : Option (List SecuritySeverity)) (categories : Option (List String))
    (config : SecurityConfig) : List SecurityRule :=
  filterByDisabledOverride config.rules
    (filterByEnabledOverride config.rules
      (filterByCategories categories
        (filterBySeverities severities
          (rules.filter fun rule =>
            rule.enabled && (rule.provider == provider || rule.provider == "*")))))

/-- The applicability filter of `SecurityScanner.scan`: rules whose
`resourceTypes` contains the resource's `type` or the literal string `"*"`
(exact string membership, no glob matching). -/
def applicableRules (enabledRules : List SecurityRule) (resource : CloudResource) :
    List SecurityRule :=
  enabledRules.filter fun rule =>
    rule.resourceTypes.contains resource.type || rule.resourceTypes.contains "*"

/-- The vulnerability object constructed in `SecurityScanner.scan` for a
failed check (`now` is the scan's clock reading, used for both date stamps). -/
def mkVulnerability (rule : SecurityRule) (resource : CloudResource)
    (f : RuleFinding) (provider now : String) : SecurityVulnerability :=
  { id := rule.id ++ "_" ++ resource.id
    title := rule.name
    description := f.description
    severity := rule.severity
    category := rule.category
    resourceId := resource.id
    resourceType := resource.type
    resourceName := resource.name
    region := resource.region
    provider := provider
    recommendation := f.recommendation
    remediation := rule.remediation
    references := rule.references
    complianceFrameworks := rule.complianceFrameworks
    evidence := f.evidence
    firstDetected := now
    lastSeen := now
    status := "open"
    tags := rule.tags }

/-- One `(resource, rule)` evaluation of the inner loop of
`SecurityScanner.scan`: the check runs with the context's region replaced by
the resource's own region; a thrown error (`err`) is caught and produces
nothing; a resolved result yields a vulnerability exactly when
`!result.passed && result.finding`. -/
def evalPair (rule : SecurityRule) (resource : CloudResource)
    (context : SecurityScanContext) (provider now : String) :
    Option SecurityVulnerability :=
  match rule.check resource { context with region := resource.region } with
  | .err => none
  | .ok result =>
      match result.finding with
      | some f =>
          if result.passed then none
          else some (mkVulnerability rule resource f provider now)
      | none => none

/-- The nested evaluation loop of `SecurityScanner.scan`: resources in
discovery order, applicable rules in catalog order, collecting the produced
vulnerabilities in order. -/
def scanVulnerabilities (enabledRules : List SecurityRule)
    (resources : List CloudResource) (context : SecurityScanContext)
    (provider now : String) : List SecurityVulnerability :=
  concatMap
    (fun resource =>
      (applicableRules enabledRules resource).filterMap
        (fun rule => evalPair rule resource context provider now))
    resources

/-- The ordered list of `(resource, rule)` pairs the evaluation loop visits. -/
def evaluatedPairs (enabledRules : List SecurityRule)
    (resources : List CloudResource) : List (CloudResource × SecurityRule) :=
  concatMap
    (fun resource =>
      (applicableRules enabledRules resource).map (fun rule => (resource, rule)))
    resources

/-- `SecurityScanner.getSeverityBreakdown`. -/
def getSeverityBreakdown (vulnerabilities : List SecurityVulnerability) :
    SeverityBreakdown :=
  { critical := (vulnerabilities.filter (fun v => v.severity == .critical)).length
    high := (vulnerabilities.filter (fun v => v.severity == .high)).length
    medium := (vulnerabilities.filter (fun v => v.severity == .medium)).length
    low := (vulnerabilities.filter (fun v => v.severity == .low)).length }

/-- `SecurityScanner.getCategoryBreakdown`: `breakdown[c] = (breakdown[c] || 0) + 1`
over an insertion-ordered object. -/
def getCategoryBreakdown (vulnerabilities : List SecurityVulnerability) :
    List (String × Nat) :=
  vulnerabilities.foldl
    (fun m v =>
      match assocLookup m v.category with
      | some n => assocUpdate m v.category (n + 1)
      | none => m ++ [(v.category, 1)])
    []

/-- `Math.round` on a (non-`NaN`) number: round half toward positive
infinity, here over exact rationals. -/
def jsRound (q : ℚ) : Int := Rat.floor (q + 1 / 2)

/-- One framework bump in `SecurityScanner.generateComplianceStatus`: create
the zeroed record if absent, then increment `totalChecks` and `failedChecks`. -/
def bumpFramework (m : List (String × FrameworkStatus)) (name : String) :
    List (String × FrameworkStatus) :=
  match assocLookup m name with
  | some st =>
      assocUpdate m name
        { st with totalChecks := st.totalChecks + 1, failedChecks := st.failedChecks + 1 }
  | none =>
      m ++ [(name, { totalChecks := 1, passedChecks := 0, failedChecks := 1, score := 0 })]

/-- The final pass of `generateComplianceStatus`:
`passedChecks = totalChecks - failedChecks` and
`score = Math.round(passedChecks / totalChecks * 100)`. -/
def finalizeFramework (st : FrameworkStatus) : FrameworkStatus :=
  let passed := st.totalChecks - st.failedChecks
  { st with
      passedChecks := passed
      score := jsRound ((passed : ℚ) / (st.totalChecks : ℚ) * 100) }

/-- `SecurityScanner.generateComplianceStatus`. -/
def generateComplianceStatus (vulnerabilities : List SecurityVulnerability) :
    List (String × FrameworkStatus) :=
  let frameworks := vulnerabilities.foldl
    (fun m v => v.complianceFrameworks.foldl (fun m' fw => bumpFramework m' fw.name) m)
    []
  frameworks.map (fun e => (e.1, finalizeFramework e.2))

/-- The severity weights of `calculateRiskScore`. -/
def severityWeight : SecuritySeverity → Nat
  | .critical => 10
  | .high => 7
  | .medium => 4
  | .low => 1

/-- The comparator ranks used by `generateSummary`'s sort
(`{critical: 4, high: 3, medium: 2, low: 1}`). -/
def severityRank : SecuritySeverity → Nat
  | .critical => 4
  | .high => 3
  | .medium => 2
  | .low => 1

/-- Stable insertion into a list in non-increasing rank order: `v` goes
before the first element whose rank is less than or equal to `v`'s — in
particular before every element of equal rank — and after only elements of
strictly greater rank. -/
def insertBySeverityDesc (v : SecurityVulnerability) :
    List SecurityVulnerability → List SecurityVulnerability
  | [] => [v]
  | w :: ws =>
      if severityRank w.severity ≤ severityRank v.severity then v :: w :: ws
      else w :: insertBySeverityDesc v ws

/-- The effect of `vulnerabilities.sort((a, b) => rank[b.severity] - rank[a.severity])`:
`Array.prototype.sort` is stable (ES2019), so with this consistent comparator
the result is the unique non-increasing-rank ordering in which equal-rank
elements keep their original relative order.  `sortBySeverityDesc (v :: vs)`
inserts the earlier element `v` into the sorted later elements, and
`insertBySeverityDesc` places it ahead of every equal-rank later element, so
ties are preserved exactly as the stable sort preserves them
(`filter_sortBySeverityDesc` below proves each severity class's subsequence
unchanged). -/
def sortBySeverityDesc : List SecurityVulnerability → List SecurityVulnerability
  | [] => []
  | v :: vs => insertBySeverityDesc v (sortBySeverityDesc vs)

/-- `SecurityScanner.calculateRiskScore`.  An empty list scores 0 before any
division.  When `totalResources = 0` (impossible after a real scan, since no
resources means no findings) the JavaScript division yields `Infinity` and
`Math.min(100, Math.round(Infinity))` is 100, modelled by the explicit
branch. -/
def calculateRiskScore (vulnerabilities : List SecurityVulnerability)
    (totalResources : Nat) : Int :=
  if vulnerabilities.length = 0 then 0
  else
    let totalWeight := vulnerabilities.foldl (fun sum v => sum + severityWeight v.severity) 0
    let maxPossibleScore := totalResources * severityWeight .critical
    if maxPossibleScore = 0 then 100
    else min 100 (jsRound ((totalWeight : ℚ) / (maxPossibleScore : ℚ) * 100))

/-- `SecurityScanner.determineSecurityPosture`. -/
def determineSecurityPosture (riskScore : Int) : String :=
  if riskScore ≥ 80 then "critical"
  else if riskScore ≥ 60 then "poor"
  else if riskScore ≥ 40 then "fair"
  else if riskScore ≥ 20 then "good"
  else "excellent"

/-- `SecurityScanner.generateSummary`.  `criticalFindings` is computed before
the sort; the `.sort` call then mutates the caller's vulnerability array in
place, so the sorted list is returned alongside the summary and every later
consumer of the array (including the final `ScanResult.vulnerabilities`)
observes the sorted order.  `quickWins` and the risk score are computed from
the already-sorted array. -/
def generateSummary (vulnerabilities : List SecurityVulnerability)
    (totalResources : Nat) : ScanSummary × List SecurityVulnerability :=
  let criticalFindings := vulnerabilities.filter (fun v => v.severity == .critical)
  let sorted := sortBySeverityDesc vulnerabilities
  let topVulnerabilities := sorted.take 10
  let quickWins :=
    (sorted.filter (fun v =>
      match v.remediation.automated with
      | some l => decide (0 < l.length)
      | none => false)).take 5
  let riskScore := calculateRiskScore sorted totalResources
  let securityPosture := determineSecurityPosture riskScore
  ({ topVulnerabilities := topVulnerabilities
     criticalFindings := criticalFindings
     quickWins := quickWins
     riskScore := riskScore
     securityPosture := securityPosture }, sorted)

/-- The scan context built at the start of `SecurityScanner.scan`
(`region: options.regions?.[0] || 'default'`, with the discovered resources
installed as `allResources`). -/
def scanContext (options : SecurityScanOptions) (resources : List CloudResource) :
    SecurityScanContext :=
  { provider := options.provider
    region := match options.regions with
      | some (r :: _) => if r == "" then "default" else r
      | _ => "default"
    accountId := none
    subscriptionId := none
    projectId := none
    allResources := resources }

/-- Number of distinct strings in a list (`new Set(l).size`). -/
def distinctCount (l : List String) : Nat := l.dedup.length

/-- `SecurityScanner.scan` after resource discovery: the discovery
collaborator is external (spec §2), so the discovered resource list is an
argument, as are the clock readings (`now` for the timestamp/date stamps,
`scanDuration` for the elapsed wall-clock time).  `catalogRules` plays
`this.rules`. -/
def scan (catalogRules : List SecurityRule) (config : SecurityConfig)
    (options : SecurityScanOptions) (resources : List CloudResource)
    (now : String) (scanDuration : Nat) : SecurityScanResult :=
  let context := scanContext options resources
  let enabledRules :=
    getEnabledRules catalogRules options.provider options.severity options.categories config
  let vulnerabilities := scanVulnerabilities enabledRules resources context options.provider now
  let complianceStatus := generateComplianceStatus vulnerabilities
  let summaryAndSorted := generateSummary vulnerabilities resources.length
  let sortedVulnerabilities := summaryAndSorted.2
  let vulnerableCount := distinctCount (sortedVulnerabilities.map (fun v => v.resourceId))
  { timestamp := now
    provider := options.provider
    regions := options.regions.getD ["default"]
    totalResources := resources.length
    totalVulnerabilities := sortedVulnerabilities.length
    severityBreakdown := getSeverityBreakdown sortedVulnerabilities
    categoryBreakdown := getCategoryBreakdown sortedVulnerabilities
    vulnerabilities := sortedVulnerabilities
    complianceStatus := complianceStatus
    summary := summaryAndSorted.1
    resources :=
      { scanned := resources.length
        vulnerable := vulnerableCount
        compliant := (resources.length : Int) - (vulnerableCount : Int)
        nonCompliant := vulnerableCount }
    scanDuration := scanDuration
    metadata :=
      { scanner := "optimisely-security-scanner"
        version := "1.0.0"
        rules := { total := catalogRules.length, enabled := enabledRules.length } } }

/-! ### Report renderers (`SecurityReporter`, reports.ts) -/

/-- `.replace(/"/g, '""')`: double every double-quote character. -/
def escapeQuotes (s : String) : String :=
  String.mk (s.data.foldr (fun c acc => if c = '"' then '"' :: '"' :: acc else c :: acc) [])

/-- The CSV header row of `SecurityReporter.generateCSV`. -/
def csvHeaders : List String :=
  ["Vulnerability ID", "Title", "Severity", "Category", "Resource ID",
   "Resource Type", "Resource Name", "Region", "Provider", "Description",
   "Recommendation", "Status", "First Detected"]

/-- The cell values of one CSV row, in column order, exactly as
`generateCSV` assembles them: only `description` and `recommendation` pass
through the quote-doubling `.replace`; every other field (the `title`
included) is embedded verbatim.  `resourceName || ''` and `region || ''`
are identities on the string model, and `firstDetected.toISOString()` is the
stored ISO string. -/
def csvRowCells (v : SecurityVulnerability) : List String :=
  [v.id, v.title, severityToString v.severity, v.category, v.resourceId,
   v.resourceType, v.resourceName, v.region, v.provider,
   escapeQuotes v.description, escapeQuotes v.recommendation, v.status,
   v.firstDetected]

/-- Wrap a cell in double quotes (the template literal of `generateCSV`). -/
def quoteCell (cell : String) : String := "\"" ++ cell ++ "\""

/-- `SecurityReporter.generateCSV`: the unquoted header row followed by one
quoted row per vulnerability, joined by newlines. -/
def generateCSV (result : SecurityScanResult) : String :=
  String.intercalate "\n"
    (String.intercalate "," csvHeaders ::
      result.vulnerabilities.map (fun v =>
        String.intercalate "," ((csvRowCells v).map quoteCell)))

/-- Standard CSV unescaping of the interior of a quoted field: a doubled
quote decodes to one quote, a lone quote is malformed.  (Spec-side decoder
used to state the round-trip property of §8 of the spec.) -/
def csvUnescapeChars : List Char → Option (List Char)
  | [] => some []
  | c :: rest =>
      if c = '"' then
        match rest with
        | [] => none
        | c2 :: rest2 =>
            if c2 = '"' then (csvUnescapeChars rest2).map (fun l => '"' :: l)
            else none
      else (csvUnescapeChars rest).map (fun l => c :: l)

/-- Standard CSV parse of one double-quote-wrapped field back to its value:
strip the surrounding quotes, then unescape the interior. -/
def csvFieldDecode (s : String) : Option String :=
  match s.data with
  | [] => none
  | c :: rest =>
      if c = '"' then
        match rest.getLast? with
        | some lastChar =>
            if lastChar = '"' ∧ rest ≠ [] then
              (csvUnescapeChars rest.dropLast).map String.mk
            else none
        | none => none
      else none

/-- `vuln.id.split('_')[0]`: the longest prefix of the id before the first
underscore (the whole id when it has no underscore). -/
def truncAtUnderscore : List Char → List Char
  | [] => []
  | c :: rest => if c = '_' then [] else c :: truncAtUnderscore rest

/-- The rule id `generateSARIF` derives from a vulnerability id. -/
def sarifRuleIdOf (vulnId : String) : String :=
  String.mk (truncAtUnderscore vulnId.data)

/-- `SecurityReporter.getSarifLevel` (the `default` arm of the source's
switch is unreachable over the closed severity type). -/
def getSarifLevel : SecuritySeverity → String
  | .critical => "error"
  | .high => "error"
  | .medium => "warning"
  | .low => "note"

/-- One entry of `tool.driver.rules` in the SARIF report. -/
structure SarifRule where
  id : String
  shortDescription : String
  fullDescription : String
  help : String
  category : String
  severity : String
deriving DecidableEq

/-- One entry of the `results` array in the SARIF report. -/
structure SarifResult where
  ruleId : String
  level : String
  message : String
  artifactUri : String
  startLine : Nat
  startColumn : Nat
  resourceType : String
  resourceName : String
  region : String
  provider : String
  category : String
  recommendation : String
deriving DecidableEq

/-- The single run of the SARIF 2.1.0 report. -/
structure SarifRun where
  driverName : String
  driverVersion : String
  informationUri : String
  rules : List SarifRule
  results : List SarifResult
deriving DecidableEq

/-- `SecurityReporter.generateSARIF`: one run; `tool.driver.rules` and
`results` both map over the vulnerabilities one-to-one (the rules array is
deliberately not deduplicated); each result points at the `resourceId` as
artifact URI with dummy line/column 1/1. -/
def generateSARIF (result : SecurityScanResult) : SarifRun :=
  { driverName := result.metadata.scanner
    driverVersion := result.metadata.version
    informationUri := "https://optimisely.ai"
    rules := result.vulnerabilities.map (fun v =>
      { id := sarifRuleIdOf v.id
        shortDescription := v.title
        fullDescription := v.description
        help := v.recommendation
        category := v.category
        severity := severityToString v.severity })
    results := result.vulnerabilities.map (fun v =>
      { ruleId := sarifRuleIdOf v.id
        level := getSarifLevel v.severity
        message := v.description
        artifactUri := v.resourceId
        startLine := 1
        startColumn := 1
        resourceType := v.resourceType
        resourceName := v.resourceName
        region := v.region
        provider := v.provider
        category := v.category
        recommendation := v.recommendation }) }

/-! ### The built-in rule catalog (`SecurityRules`, rules.ts)

The rule metadata below is transcribed field-for-field from `rules.ts`.
The `check` closures inspect the free-form `configuration` record; none of
the verified properties depends on what a check returns, so each check is a
parameter and every theorem about the catalog holds for every possible
check behaviour, the concrete bodies of `rules.ts` included.  Note that
every `remediation` sets only `description`, `steps`, `automatable` (and
for AWS-001 `terraform`); no rule ever populates `manual` or `automated`. -/

/-- The type of a rule's `check` predicate. -/
abbrev RuleCheck := CloudResource → SecurityScanContext → CheckOutcome

/-- `SecurityRules.getAWSRules`. -/
def getAWSRules (checkS3PublicRead checkEC2PublicIP checkRDSPublic
    checkSGSSH checkCloudTrailEnc : RuleCheck) : List SecurityRule :=
  [ { id := "AWS-001"
      name := "S3 Bucket Public Read Access"
      description := "S3 buckets should not allow public read access"
      severity := .critical
      category := "access_control"
      provider := "aws"
      resourceTypes := ["aws_s3_bucket"]
      enabled := true
      check := checkS3PublicRead
      remediation :=
        { description := "Remove public access and implement proper access controls"
          steps :=
            ["Navigate to S3 console",
             "Select the bucket",
             "Go to Permissions tab",
             "Block all public access",
             "Configure bucket policy with specific permissions"]
          automatable := true
          manual := none
          automated := none
          terraform := some "\nresource \"aws_s3_bucket_public_access_block\" \"example\" \x7b\n  bucket = aws_s3_bucket.example.id\n\n  block_public_acls       = true\n  block_public_policy     = true\n  ignore_public_acls      = true\n  restrict_public_buckets = true\n\x7d" }
      references :=
        ["https://docs.aws.amazon.com/s3/latest/userguide/access-control-block-public-access.html",
         "https://aws.amazon.com/s3/features/block-public-access/"]
      complianceFrameworks :=
        [{ name := "CIS AWS Foundations", requirement := "2.1.1",
           description := "Ensure S3 bucket access logging is enabled" },
         { name := "SOC 2", requirement := "CC6.1",
           description := "Logical and physical access controls" }]
      tags := ["s3", "data-protection", "public-access"] },
    { id := "AWS-002"
      name := "EC2 Instance Public IP"
      description := "EC2 instances should not have public IP addresses unless necessary"
      severity := .high
      category := "network_security"
      provider := "aws"
      resourceTypes := ["aws_instance"]
      enabled := true
      check := checkEC2PublicIP
      remediation :=
        { description := "Remove public IP and use private networking"
          steps :=
            ["Stop the EC2 instance",
             "Modify network settings to remove public IP",
             "Set up NAT Gateway for outbound internet access",
             "Use VPN or bastion host for administrative access"]
          automatable := true
          manual := none
          automated := none
          terraform := none }
      references :=
        ["https://docs.aws.amazon.com/vpc/latest/userguide/vpc-nat-gateway.html"]
      complianceFrameworks :=
        [{ name := "CIS AWS Foundations", requirement := "4.1",
           description := "Ensure no security groups allow ingress from 0.0.0.0/0 to port 22" }]
      tags := ["ec2", "network", "public-ip"] },
    { id := "AWS-003"
      name := "RDS Instance Public Access"
      description := "RDS instances should not be publicly accessible"
      severity := .critical
      category := "data_protection"
      provider := "aws"
      resourceTypes := ["aws_db_instance"]
      enabled := true
      check := checkRDSPublic
      remediation :=
        { description := "Disable public access for RDS instance"
          steps :=
            ["Go to RDS console",
             "Select the DB instance",
             "Choose Modify",
             "Under Connectivity, set Public access to No",
             "Apply changes immediately or during maintenance window"]
          automatable := true
          manual := none
          automated := none
          terraform := none }
      references :=
        ["https://docs.aws.amazon.com/AmazonRDS/latest/UserGuide/USER_VPC.WorkingWithRDSInstanceinaVPC.html"]
      complianceFrameworks :=
        [{ name := "CIS AWS Foundations", requirement := "2.3.1",
           description := "Ensure RDS instances are not publicly accessible" },
         { name := "PCI DSS", requirement := "1.3",
           description := "Prohibit direct public access between Internet and cardholder data environment" }]
      tags := ["rds", "database", "public-access"] },
    { id := "AWS-004"
      name := "Security Group SSH Access"
      description := "Security groups should not allow SSH access from 0.0.0.0/0"
      severity := .high
      category := "network_security"
      provider := "aws"
      resourceTypes := ["aws_security_group"]
      enabled := true
      check := checkSGSSH
      remediation :=
        { description := "Restrict SSH access to specific IP ranges"
          steps :=
            ["Go to EC2 console",
             "Navigate to Security Groups",
             "Select the security group",
             "Edit inbound rules",
             "Change SSH source from 0.0.0.0/0 to specific IP ranges"]
          automatable := true
          manual := none
          automated := none
          terraform := none }
      references :=
        ["https://docs.aws.amazon.com/AWSEC2/latest/UserGuide/security-group-rules.html"]
      complianceFrameworks :=
        [{ name := "CIS AWS Foundations", requirement := "4.1",
           description := "Ensure no security groups allow ingress from 0.0.0.0/0 to port 22" }]
      tags := ["security-group", "ssh", "network"] },
    { id := "AWS-005"
      name := "CloudTrail Encryption"
      description := "CloudTrail logs should be encrypted at rest"
      severity := .medium
      category := "encryption"
      provider := "aws"
      resourceTypes := ["aws_cloudtrail"]
      enabled := true
      check := checkCloudTrailEnc
      remediation :=
        { description := "Enable KMS encryption for CloudTrail"
          steps :=
            ["Go to CloudTrail console",
             "Select the trail",
             "Under Storage location, check \"Encrypt log files with SSE-KMS\"",
             "Select or create a KMS key",
             "Save changes"]
          automatable := true
          manual := none
          automated := none
          terraform := none }
      references :=
        ["https://docs.aws.amazon.com/awscloudtrail/latest/userguide/encrypting-cloudtrail-log-files-with-aws-kms.html"]
      complianceFrameworks :=
        [{ name := "CIS AWS Foundations", requirement := "2.7",
           description := "Ensure CloudTrail logs are encrypted at rest using KMS CMKs" }]
      tags := ["cloudtrail", "encryption", "logging"] } ]

/-- `SecurityRules.getAzureRules`. -/
def getAzureRules (checkStoragePublic checkNSGSSH : RuleCheck) : List SecurityRule :=
  [ { id := "AZURE-001"
      name := "Storage Account Public Access"
      description := "Storage accounts should not allow public blob access"
      severity := .critical
      category := "access_control"
      provider := "azure"
      resourceTypes := ["azurerm_storage_account"]
      enabled := true
      check := checkStoragePublic
      remediation :=
        { description := "Disable public blob access"
          steps :=
            ["Go to Azure Portal",
             "Navigate to Storage Accounts",
             "Select the storage account",
             "Under Settings, click Configuration",
             "Set \"Allow Blob public access\" to Disabled"]
          automatable := true
          manual := none
          automated := none
          terraform := none }
      references :=
        ["https://docs.microsoft.com/en-us/azure/storage/blobs/anonymous-read-access-prevent"]
      complianceFrameworks :=
        [{ name := "CIS Azure Foundations", requirement := "3.1",
           description := "Ensure that \"Secure transfer required\" is set to \"Enabled\"" }]
      tags := ["storage", "public-access", "blob"] },
    { id := "AZURE-002"
      name := "Network Security Group SSH Access"
      description := "Network Security Groups should not allow SSH access from internet"
      severity := .high
      category := "network_security"
      provider := "azure"
      resourceTypes := ["azurerm_network_security_group"]
      enabled := true
      check := checkNSGSSH
      remediation :=
        { description := "Restrict SSH access in NSG rules"
          steps :=
            ["Go to Azure Portal",
             "Navigate to Network Security Groups",
             "Select the NSG",
             "Click on Inbound security rules",
             "Modify or delete rules allowing SSH from internet"]
          automatable := true
          manual := none
          automated := none
          terraform := none }
      references :=
        ["https://docs.microsoft.com/en-us/azure/virtual-network/network-security-groups-overview"]
      complianceFrameworks :=
        [{ name := "CIS Azure Foundations", requirement := "6.1",
           description := "Ensure that RDP access is restricted from the internet" }]
      tags := ["nsg", "ssh", "network-security"] } ]

/-- `SecurityRules.getGCPRules`. -/
def getGCPRules (checkComputePublicIP : RuleCheck) : List SecurityRule :=
  [ { id := "GCP-001"
      name := "Compute Instance Public IP"
      description := "Compute instances should not have external IP addresses unless necessary"
      severity := .medium
      category := "network_security"
      provider := "gcp"
      resourceTypes := ["google_compute_instance"]
      enabled := true
      check := checkComputePublicIP
      remediation :=
        { description := "Remove external IP from compute instance"
          steps :=
            ["Go to Compute Engine console",
             "Select the instance",
             "Click Edit",
             "Under Network interfaces, click the interface",
             "Set External IP to None"]
          automatable := true
          manual := none
          automated := none
          terraform := none }
      references :=
        ["https://cloud.google.com/compute/docs/ip-addresses"]
      complianceFrameworks :=
        [{ name := "CIS GCP Foundations", requirement := "4.1",
           description := "Ensure that instances are not configured to use the default service account" }]
      tags := ["compute", "external-ip", "network"] } ]

/-- `SecurityRules.getMultiCloudRules`: the single provider-agnostic rule
`MULTI-001`.  Its `resourceTypes` entries are the glob-like literals from
the source, which the engine's applicability test compares by exact string
equality. -/
def getMultiCloudRules (checkStorageEncryption : RuleCheck) : List SecurityRule :=
  [ { id := "MULTI-001"
      name := "Unencrypted Storage"
      description := "Storage resources should be encrypted at rest"
      severity := .high
      category := "encryption"
      provider := "*"
      resourceTypes := ["*_storage*", "*_bucket*", "*_disk*"]
      enabled := true
      check := checkStorageEncryption
      remediation :=
        { description := "Enable encryption at rest"
          steps :=
            ["Navigate to the resource configuration",
             "Enable encryption settings",
             "Choose appropriate encryption key management",
             "Apply changes"]
          automatable := true
          manual := none
          automated := none
          terraform := none }
      references :=
        ["https://docs.aws.amazon.com/AmazonS3/latest/userguide/bucket-encryption.html",
         "https://docs.microsoft.com/en-us/azure/storage/common/storage-service-encryption",
         "https://cloud.google.com/storage/docs/encryption"]
      complianceFrameworks :=
        [{ name := "SOC 2", requirement := "CC6.1", description := "Data encryption" },
         { name := "PCI DSS", requirement := "3.4", description := "Protect stored cardholder data" }]
      tags := ["encryption", "storage", "data-protection"] } ]

/-- `SecurityRules.getAllRules` (the merge order of `initializeRules`). -/
def getAllRules (checkS3PublicRead checkEC2PublicIP checkRDSPublic checkSGSSH
    checkCloudTrailEnc checkStoragePublic checkNSGSSH checkComputePublicIP
    checkStorageEncryption : RuleCheck) : List SecurityRule :=
  getAWSRules checkS3PublicRead checkEC2PublicIP checkRDSPublic checkSGSSH checkCloudTrailEnc
    ++ getAzureRules checkStoragePublic checkNSGSSH
    ++ getGCPRules checkComputePublicIP
    ++ getMultiCloudRules checkStorageEncryption

/-! ### Derived forms and concrete example data -/

/-- The rules a scan selects, as a function of its arguments. -/
def enabledRulesOf (catalogRules : List SecurityRule) (config : SecurityConfig)
    (options : SecurityScanOptions) : List SecurityRule :=
  getEnabledRules catalogRules options.provider options.severity options.categories config

/-- The flattened list of framework names referenced by the vulnerabilities,
in evaluation order: one entry per `(vulnerability, framework entry)` pair. -/
def frameworkNames (vulnerabilities : List SecurityVulnerability) : List String :=
  concatMap (fun v => v.complianceFrameworks.map (fun fw => fw.name)) vulnerabilities

/-- Number of `(vulnerability, framework entry)` pairs naming `name`. -/
def frameworkEntryCount (vulnerabilities : List SecurityVulnerability) (name : String) : Nat :=
  (frameworkNames vulnerabilities).count name

/-- Number of vulnerabilities whose `complianceFrameworks` mention `name` at
least once (each referencing vulnerability counted exactly once). -/
def referencingVulnCount (vulnerabilities : List SecurityVulnerability) (name : String) : Nat :=
  (vulnerabilities.filter (fun v => v.complianceFrameworks.any (fun fw => fw.name == name))).length

/-- An all-failures counter record: `totalChecks = failedChecks = c`,
nothing passed, score 0. -/
def countStatus (c : Int) : FrameworkStatus :=
  { totalChecks := c, passedChecks := 0, failedChecks := c, score := 0 }

/-- Add `c` to both check counters of a framework record. -/
def addChecks (st : FrameworkStatus) (c : Int) : FrameworkStatus :=
  { st with totalChecks := st.totalChecks + c, failedChecks := st.failedChecks + c }

/-- A configuration with no rule overrides. -/
def emptyConfig : SecurityConfig := { rules := none }

/-- Plain AWS scan options: no region list, no severity or category filter. -/
def sampleOptions : SecurityScanOptions :=
  { provider := "aws", regions := none, severity := none, categories := none
    includeCompliance := none, outputFormat := none, outputFile := none, verbose := none }

/-- Scan options requesting only critical-severity rules. -/
def criticalOnlyOptions : SecurityScanOptions :=
  { sampleOptions with severity := some [.critical] }

/-- A concrete finding payload. -/
def sampleFinding : RuleFinding :=
  { description := "finding", evidence := [], recommendation := "do fix" }

/-- A resolved check result that fails with a finding. -/
def failOutcome : CheckOutcome := .ok { passed := false, finding := some sampleFinding }

/-- A remediation block in the shape every built-in rule uses: `automatable`
set, `automated` absent. -/
def sampleRemediation : Remediation :=
  { description := "fix it", steps := [], automatable := true, manual := none
    automated := none, terraform := none }

/-- A concrete custom rule with the given id, severity and constant check
outcome, applicable to resources of type `sample_type`. -/
def mkTestRule (id : String) (severity : SecuritySeverity) (outcome : CheckOutcome) :
    SecurityRule :=
  { id := id, name := "Rule " ++ id, description := "test rule", severity := severity
    category := "configuration", provider := "aws", resourceTypes := ["sample_type"]
    enabled := true, check := fun _ _ => outcome, remediation := sampleRemediation
    references := [], complianceFrameworks := [], tags := [] }

/-- A concrete resource matching `mkTestRule`'s resource type. -/
def sampleResource : CloudResource :=
  { id := "r1", name := "res-one", type := "sample_type", provider := "aws"
    region := "us-east-1", tags := none, configuration := [], metadata := none }

/-- A resource whose type is literally one of MULTI-001's glob-like strings. -/
def globResource : CloudResource :=
  { id := "g1", name := "glob-bucket", type := "*_bucket*", provider := "aws"
    region := "us-east-1", tags := none, configuration := [], metadata := none }

/-- A low-severity rule that always fails resources. -/
def lowRule : SecurityRule := mkTestRule "LOW-001" .low failOutcome

/-- A critical-severity rule that always fails resources. -/
def critRule : SecurityRule := mkTestRule "CRIT-001" .critical failOutcome

/-- A rule whose check always throws. -/
def errRule : SecurityRule := mkTestRule "ERR-001" .high .err

/-- A low-severity rule that always fails resources (companion to `errRule`). -/
def okRule : SecurityRule := mkTestRule "OK-001" .low failOutcome

/-- A constantly-failing check, used to instantiate the built-in catalog's
check parameters in concrete examples. -/
def alwaysFailCheck : RuleCheck := fun _ _ => failOutcome

/-- A concrete vulnerability with the given id, title, severity and
compliance framework list. -/
def mkTestVuln (id title : String) (severity : SecuritySeverity)
    (frameworks : List ComplianceFramework) : SecurityVulnerability :=
  { id := id, title := title, description := "d", severity := severity
    category := "c", resourceId := "res1", resourceType := "t", resourceName := "n"
    region := "r", provider := "aws", recommendation := "rec"
    remediation := sampleRemediation, references := [], complianceFrameworks := frameworks
    evidence := [], firstDetected := "2026-01-01T00:00:00.000Z"
    lastSeen := "2026-01-01T00:00:00.000Z", status := "open", tags := [] }

/-- A vulnerability whose title contains a double-quote character. -/
def quotedTitleVuln : SecurityVulnerability := mkTestVuln "R1_res1" "Say \"Hi\"" .low []

/-- A vulnerability listing the same framework name twice (two requirements
of one framework). -/
def dupFrameworkVuln : SecurityVulnerability :=
  mkTestVuln "R1_res1" "Dup" .low
    [{ name := "F", requirement := "1.1", description := "first" },
     { name := "F", requirement := "1.2", description := "second" }]

/-- A vulnerability shaped like an engine-produced AWS-002 finding. -/
def sarifVuln : SecurityVulnerability :=
  mkTestVuln "AWS-002_i-1" "EC2 Instance Public IP" .high []

/-- A concrete scan result carrying the given vulnerabilities. -/
def mkTestResult (vulns : List SecurityVulnerability) : SecurityScanResult :=
  { timestamp := "2026-01-01T00:00:00.000Z", provider := "aws", regions := ["us-east-1"]
    totalResources := 1, totalVulnerabilities := vulns.length
    severityBreakdown := getSeverityBreakdown vulns
    categoryBreakdown := getCategoryBreakdown vulns
    vulnerabilities := vulns, complianceStatus := []
    summary :=
      { topVulnerabilities := vulns, criticalFindings := [], quickWins := []
        riskScore := 0, securityPosture := "excellent" }
    resources := { scanned := 1, vulnerable := 1, compliant := 0, nonCompliant := 1 }
    scanDuration := 5
    metadata :=
      { scanner := "optimisely-security-scanner", version := "1.0.0"
        rules := { total := 9, enabled := 6 } } }

/-! ### Shared lemmas about the engine -/

/-- `Rat.floor` agrees with the mathematical floor. -/
theorem ratFloor_eq_intFloor (q : ℚ) : Rat.floor q = Int.floor q :=
  (Rat.floor_def' q).trans Rat.floor_def.symm

/-- `jsRound` as a mathematical floor. -/
theorem jsRound_eq_floor (q : ℚ) : jsRound q = Int.floor (q + 1 / 2) :=
  ratFloor_eq_intFloor _

/-- Rounding zero. -/
theorem jsRound_zero : jsRound 0 = 0 := by
  rw [jsRound_eq_floor, Int.floor_eq_iff]
  norm_num

/-- Rounding an integer value. -/
theorem jsRound_intCast (z : ℤ) : jsRound (z : ℚ) = z := by
  rw [jsRound_eq_floor, Int.floor_eq_iff]
  constructor
  · linarith [show (0 : ℚ) < 1 / 2 by norm_num]
  · linarith [show (1 : ℚ) / 2 < 1 by norm_num]

/-- Membership in a `concatMap`. -/
theorem mem_concatMap {f : α → List β} {b : β} :
    ∀ {l : List α}, (b ∈ concatMap f l ↔ ∃ a, a ∈ l ∧ b ∈ f a)
  | [] => by simp [concatMap]
  | a :: as => by
      simp only [concatMap, List.mem_append, mem_concatMap (l := as), List.mem_cons]
      constructor
      · rintro (hb | ⟨x, hx, hbx⟩)
        · exact ⟨a, Or.inl rfl, hb⟩
        · exact ⟨x, Or.inr hx, hbx⟩
      · rintro ⟨x, hx | hx, hbx⟩
        · exact Or.inl (hx ▸ hbx)
        · exact Or.inr ⟨x, hx, hbx⟩

/-- The nested evaluation loop is the `filterMap` of the per-pair evaluation
over the ordered pair list. -/
theorem scanVulnerabilities_eq_filterMap (enabledRules : List SecurityRule)
    (context : SecurityScanContext) (provider now : String) :
    ∀ resources : List CloudResource,
      scanVulnerabilities enabledRules resources context provider now =
        (evaluatedPairs enabledRules resources).filterMap
          (fun pr => evalPair pr.2 pr.1 context provider now)
  | [] => rfl
  | r :: rs => by
      simp only [scanVulnerabilities, evaluatedPairs, concatMap, List.filterMap_append,
        List.filterMap_map]
      have ih := scanVulnerabilities_eq_filterMap enabledRules context provider now rs
      simp only [scanVulnerabilities, evaluatedPairs] at ih
      rw [ih]
      rfl

/-- Dropping a position whose image under `f` is `none` does not change a
`filterMap`. -/
theorem filterMap_eraseIdx_of_none {β : Type} :
    ∀ (l : List α) (k : Nat) (h : k < l.length) (f : α → Option β),
      f (l.get ⟨k, h⟩) = none → l.filterMap f = (l.eraseIdx k).filterMap f
  | [], k, h, _, _ => absurd h (by simp)
  | a :: as, 0, _, f, hf => by
      simp only [List.get] at hf
      simp [List.eraseIdx, List.filterMap_cons, hf]
  | a :: as, k + 1, h, f, hf => by
      have ih := filterMap_eraseIdx_of_none as k (Nat.lt_of_succ_lt_succ h) f hf
      simp only [List.eraseIdx, List.filterMap_cons]
      cases hfa : f a <;> simp [hfa, ih]

/-- Stable insertion permutes the element onto the front. -/
theorem insertBySeverityDesc_perm (v : SecurityVulnerability) :
    ∀ l : List SecurityVulnerability, (insertBySeverityDesc v l).Perm (v :: l)
  | [] => List.Perm.refl _
  | w :: ws => by
      simp only [insertBySeverityDesc]
      split
      · exact List.Perm.refl _
      · exact ((insertBySeverityDesc_perm v ws).cons w).trans (List.Perm.swap v w ws)

/-- The severity sort permutes its input. -/
theorem sortBySeverityDesc_perm :
    ∀ l : List SecurityVulnerability, (sortBySeverityDesc l).Perm l
  | [] => List.Perm.refl _
  | v :: vs =>
      (insertBySeverityDesc_perm v (sortBySeverityDesc vs)).trans
        ((sortBySeverityDesc_perm vs).cons v)

/-- The severity sort yields the empty list only on the empty list. -/
theorem sortBySeverityDesc_eq_nil {l : List SecurityVulnerability}
    (h : sortBySeverityDesc l = []) : l = [] :=
  List.Perm.eq_nil ((h ▸ sortBySeverityDesc_perm l).symm)

/-- Stable insertion preserves the non-increasing-rank invariant. -/
theorem insertBySeverityDesc_pairwise (v : SecurityVulnerability) :
    ∀ l : List SecurityVulnerability,
      l.Pairwise (fun a b => severityRank b.severity ≤ severityRank a.severity) →
      (insertBySeverityDesc v l).Pairwise
        (fun a b => severityRank b.severity ≤ severityRank a.severity)
  | [], _ => by simp [insertBySeverityDesc]
  | w :: ws, hpw => by
      rcases List.pairwise_cons.1 hpw with ⟨hw, hws⟩
      simp only [insertBySeverityDesc]
      split
      · rename_i hle
        refine List.pairwise_cons.2 ⟨?_, hpw⟩
        intro b hb
        rcases List.mem_cons.1 hb with hb | hb
        · exact hb ▸ hle
        · exact Nat.le_trans (hw b hb) hle
      · rename_i hnle
        refine List.pairwise_cons.2 ⟨?_, insertBySeverityDesc_pairwise v ws hws⟩
        intro b hb
        rcases List.mem_cons.1 ((insertBySeverityDesc_perm v ws).mem_iff.1 hb) with hb | hb
        · exact hb ▸ Nat.le_of_lt (Nat.not_le.1 hnle)
        · exact hw b hb

/-- The severity sort is sorted by non-increasing comparator rank. -/
theorem sortBySeverityDesc_pairwise :
    ∀ l : List SecurityVulnerability,
      (sortBySeverityDesc l).Pairwise
        (fun a b => severityRank b.severity ≤ severityRank a.severity)
  | [] => List.Pairwise.nil
  | v :: vs => insertBySeverityDesc_pairwise v _ (sortBySeverityDesc_pairwise vs)

/-- Distinct severities have distinct comparator ranks. -/
theorem severityRank_injective {s t : SecuritySeverity}
    (h : severityRank s = severityRank t) : s = t := by
  cases s <;> cases t <;> first | rfl | exact absurd h (by decide)

/-- Inserting an element of the filtered severity class prepends it to the
class's subsequence: every element it is placed behind has strictly greater
rank, hence a different severity. -/
theorem filter_insertBySeverityDesc_self (v : SecurityVulnerability)
    (sev : SecuritySeverity) (hv : v.severity = sev) :
    ∀ l : List SecurityVulnerability,
      (insertBySeverityDesc v l).filter (fun w => w.severity == sev)
        = v :: l.filter (fun w => w.severity == sev)
  | [] => by simp [insertBySeverityDesc, hv]
  | w :: ws => by
      simp only [insertBySeverityDesc]
      split
      · simp [List.filter_cons, hv]
      · rename_i hnle
        have hwne : (w.severity == sev) = false := by
          rw [beq_eq_false_iff_ne]
          intro hcon
          have heq : severityRank w.severity = severityRank v.severity := by
            rw [hcon, hv]
          exact hnle (le_of_eq heq)
        simp only [List.filter_cons, hwne]
        simp only [Bool.false_eq_true, if_false]
        exact filter_insertBySeverityDesc_self v sev hv ws

/-- Inserting an element outside the filtered severity class leaves the
class's subsequence unchanged. -/
theorem filter_insertBySeverityDesc_other (v : SecurityVulnerability)
    (sev : SecuritySeverity) (hv : ¬ v.severity = sev) :
    ∀ l : List SecurityVulnerability,
      (insertBySeverityDesc v l).filter (fun w => w.severity == sev)
        = l.filter (fun w => w.severity == sev)
  | [] => by
      have hvne : (v.severity == sev) = false := beq_eq_false_iff_ne.2 hv
      simp [insertBySeverityDesc, hvne]
  | w :: ws => by
      have hvne : (v.severity == sev) = false := beq_eq_false_iff_ne.2 hv
      simp only [insertBySeverityDesc]
      split
      · simp [List.filter_cons, hvne]
      · simp only [List.filter_cons]
        rw [filter_insertBySeverityDesc_other v sev hv ws]

/-- Stability of the severity sort: the subsequence of each severity class
is exactly the input's, as the program's stable `Array.prototype.sort`
leaves it (the comparator returns 0 precisely on equal severities, since
`severityRank` is injective). -/
theorem filter_sortBySeverityDesc (sev : SecuritySeverity) :
    ∀ l : List SecurityVulnerability,
      (sortBySeverityDesc l).filter (fun w => w.severity == sev)
        = l.filter (fun w => w.severity == sev)
  | [] => rfl
  | v :: vs => by
      simp only [sortBySeverityDesc]
      by_cases hv : v.severity = sev
      · rw [filter_insertBySeverityDesc_self v sev hv (sortBySeverityDesc vs),
          filter_sortBySeverityDesc sev vs]
        have hvb : (v.severity == sev) = true := by simpa using hv
        simp [List.filter_cons, hvb]
      · rw [filter_insertBySeverityDesc_other v sev hv (sortBySeverityDesc vs),
          filter_sortBySeverityDesc sev vs]
        have hvne : (v.severity == sev) = false := beq_eq_false_iff_ne.2 hv
        simp [List.filter_cons, hvne]

/-- Unfolding a successful pair evaluation. -/
theorem evalPair_eq_some {rule : SecurityRule} {resource : CloudResource}
    {context : SecurityScanContext} {provider now : String}
    {v : SecurityVulnerability}
    (h : evalPair rule resource context provider now = some v) :
    ∃ result f,
      rule.check resource { context with region := resource.region } = .ok result ∧
      result.passed = false ∧ result.finding = some f ∧
      v = mkVulnerability rule resource f provider now := by
  unfold evalPair at h
  split at h
  · exact absurd h (by simp)
  · rename_i result hc
    split at h
    · rename_i f hf
      split at h
      · exact absurd h (by simp)
      · rename_i hp
        exact ⟨result, f, hc, by simpa using hp, hf, (Option.some_inj.mp h).symm⟩
    · exact absurd h (by simp)

/-- Every vulnerability in the evaluation loop's output comes from an
applicable `(resource, rule)` pair whose check resolved to a failed result. -/
theorem mem_scanVulnerabilities {enabledRules : List SecurityRule}
    {resources : List CloudResource} {context : SecurityScanContext}
    {provider now : String} {v : SecurityVulnerability}
    (hv : v ∈ scanVulnerabilities enabledRules resources context provider now) :
    ∃ resource rule f,
      resource ∈ resources ∧ rule ∈ enabledRules ∧
      (rule.resourceTypes.contains resource.type || rule.resourceTypes.contains "*") = true ∧
      v = mkVulnerability rule resource f provider now := by
  rcases mem_concatMap.1 hv with ⟨resource, hres, hv2⟩
  rcases List.mem_filterMap.1 hv2 with ⟨rule, hrule, heval⟩
  have happ := List.mem_filter.1 hrule
  rcases evalPair_eq_some heval with ⟨_, f, _, _, _, hveq⟩
  exact ⟨resource, rule, f, hres, happ.1, happ.2, hveq⟩

/-- Peeling the severity stage. -/
theorem mem_filterBySeverities {severities : Option (List SecuritySeverity)}
    {fr : List SecurityRule} {rule : SecurityRule}
    (h : rule ∈ filterBySeverities severities fr) : rule ∈ fr := by
  unfold filterBySeverities at h
  repeat' split at h
  all_goals first | exact List.mem_of_mem_filter h | exact h

/-- Peeling the category stage. -/
theorem mem_filterByCategories {categories : Option (List String)}
    {fr : List SecurityRule} {rule : SecurityRule}
    (h : rule ∈ filterByCategories categories fr) : rule ∈ fr := by
  unfold filterByCategories at h
  repeat' split at h
  all_goals first | exact List.mem_of_mem_filter h | exact h

/-- Peeling the allow-list stage. -/
theorem mem_filterByEnabledOverride {rulesOverride : Option RulesOverride}
    {fr : List SecurityRule} {rule : SecurityRule}
    (h : rule ∈ filterByEnabledOverride rulesOverride fr) : rule ∈ fr := by
  unfold filterByEnabledOverride at h
  repeat' split at h
  all_goals first | exact List.mem_of_mem_filter h | exact h

/-- Peeling the deny-list stage. -/
theorem mem_filterByDisabledOverride {rulesOverride : Option RulesOverride}
    {fr : List SecurityRule} {rule : SecurityRule}
    (h : rule ∈ filterByDisabledOverride rulesOverride fr) : rule ∈ fr := by
  unfold filterByDisabledOverride at h
  repeat' split at h
  all_goals first | exact List.mem_of_mem_filter h | exact h

/-- Rule selection only ever narrows the catalog. -/
theorem getEnabledRules_subset {rules : List SecurityRule} {provider : String}
    {severities : Option (List SecuritySeverity)} {categories : Option (List String)}
    {config : SecurityConfig} {rule : SecurityRule}
    (h : rule ∈ getEnabledRules rules provider severities categories config) :
    rule ∈ rules := by
  unfold getEnabledRules at h
  exact List.mem_of_mem_filter
    (mem_filterBySeverities (mem_filterByCategories
      (mem_filterByEnabledOverride (mem_filterByDisabledOverride h))))

/-- With a requested severity set `{critical}`, every selected rule is
critical. -/
theorem getEnabledRules_critical {rules : List SecurityRule} {provider : String}
    {categories : Option (List String)} {config : SecurityConfig} {rule : SecurityRule}
    (h : rule ∈ getEnabledRules rules provider (some [.critical]) categories config) :
    rule.severity = .critical := by
  unfold getEnabledRules at h
  have h3 := mem_filterByCategories
    (mem_filterByEnabledOverride (mem_filterByDisabledOverride h))
  have h4 : ([SecuritySeverity.critical].contains rule.severity) = true := by
    unfold filterBySeverities at h3
    repeat' split at h3
    all_goals first
      | exact (List.mem_filter.1 h3).2
      | simp_all
  cases hs : rule.severity <;> rw [hs] at h4 <;> simp_all

/-- The vulnerability list of a scan result is the severity-sorted
evaluation-loop output (the in-place `sort` of `generateSummary`). -/
theorem scan_vulnerabilities_def (catalogRules : List SecurityRule)
    (config : SecurityConfig) (options : SecurityScanOptions)
    (resources : List CloudResource) (now : String) (scanDuration : Nat) :
    (scan catalogRules config options resources now scanDuration).vulnerabilities =
      sortBySeverityDesc
        (scanVulnerabilities (enabledRulesOf catalogRules config options)
          resources (scanContext options resources) options.provider now) := rfl

/-! ### The claims -/

set_option maxRecDepth 8192 in
/-- C3: the claim says every CSV field — in particular the title — has its
embedded double quotes escaped by doubling, so a quoted title round-trips.
`generateCSV` escapes only `description` and `recommendation`; at the
result below, whose single vulnerability is titled `Say "Hi"`, the emitted
row embeds the title's quotes unescaped (first conjunct, the full output),
the title cell fails standard CSV unescaping (second conjunct), while the
properly doubled cell would round-trip (third conjunct). -/
theorem generateCSV_title_unescaped :
    generateCSV (mkTestResult [quotedTitleVuln]) =
        "Vulnerability ID,Title,Severity,Category,Resource ID,Resource Type,Resource Name,Region,Provider,Description,Recommendation,Status,First Detected\n\"R1_res1\",\"Say \"Hi\"\",\"low\",\"c\",\"res1\",\"t\",\"n\",\"r\",\"aws\",\"d\",\"rec\",\"open\",\"2026-01-01T00:00:00.000Z\""
      ∧ csvFieldDecode (quoteCell quotedTitleVuln.title) = none
      ∧ csvFieldDecode (quoteCell (escapeQuotes quotedTitleVuln.title))
          = some quotedTitleVuln.title := by
  refine ⟨?_, ?_, ?_⟩ <;> decide

/-- The weight fold of `calculateRiskScore` as a mapped sum. -/
theorem foldl_severityWeight (l : List SecurityVulnerability) :
    ∀ acc : Nat,
      l.foldl (fun sum v => sum + severityWeight v.severity) acc
        = acc + (l.map (fun w => severityWeight w.severity)).sum := by
  induction l with
  | nil => intro acc; simp
  | cons v vs ih =>
      intro acc
      simp only [List.foldl_cons, List.map_cons, List.sum_cons, ih]
      omega

/-- C4: the risk score is the weighted sum (critical 10, high 7, medium 4,
low 1) normalized by `totalResources * 10`, rounded and capped at 100; the
empty list scores 0; one critical vulnerability over one resource scores
100 with posture `critical`. -/
theorem calculateRiskScore_spec (vulns : List SecurityVulnerability) (n : Nat)
    (v : SecurityVulnerability) (hn : 0 < n) (hv : v.severity = .critical) :
    (calculateRiskScore vulns n =
        min 100 (jsRound
          (((vulns.map (fun w => severityWeight w.severity)).sum : ℚ) / ((n : ℚ) * 10) * 100)))
      ∧ calculateRiskScore [] n = 0
      ∧ calculateRiskScore [v] 1 = 100
      ∧ determineSecurityPosture (calculateRiskScore [v] 1) = "critical" := by
  have h100 : calculateRiskScore [v] 1 = 100 := by
    unfold calculateRiskScore
    rw [if_neg (by simp)]
    simp only [List.foldl_cons, List.foldl_nil, hv, severityWeight]
    rw [if_neg (by norm_num)]
    have harg : (((0 + 10 : Nat) : ℚ)) / (((1 * 10 : Nat) : ℚ)) * 100 = ((100 : ℤ) : ℚ) := by
      norm_num
    rw [harg, jsRound_intCast]
    norm_num
  refine ⟨?_, rfl, h100, by rw [h100]; rfl⟩
  by_cases hemp : vulns.length = 0
  · have hnil : vulns = [] := List.length_eq_zero.mp hemp
    subst hnil
    unfold calculateRiskScore
    rw [if_pos hemp]
    have harg : ((([] : List SecurityVulnerability).map
        (fun w => severityWeight w.severity)).sum : ℚ) / ((n : ℚ) * 10) * 100 = 0 := by
      simp
    rw [harg, jsRound_zero]
    norm_num
  · unfold calculateRiskScore
    rw [if_neg hemp]
    have hmax : ¬ n * severityWeight .critical = 0 := by
      simp only [severityWeight]
      omega
    rw [if_neg hmax]
    congr 1
    congr 1
    rw [foldl_severityWeight]
    have hne : ((n : ℚ) * 10) ≠ 0 := by
      have : (0 : ℚ) < (n : ℚ) := by exact_mod_cast hn
      positivity
    push_cast [severityWeight]
    ring

/-- C4 witness: the formula, the empty-list case and the one-critical case
at concrete inputs. -/
theorem calculateRiskScore_spec_witness :
    (0 < 1) ∧ (mkTestVuln "C_1" "Critical issue" .critical []).severity = .critical
      ∧ ((calculateRiskScore [] 1 =
            min 100 (jsRound
              (((([] : List SecurityVulnerability).map
                  (fun w => severityWeight w.severity)).sum : ℚ) / ((1 : ℚ) * 10) * 100)))
          ∧ calculateRiskScore [] 1 = 0
          ∧ calculateRiskScore [mkTestVuln "C_1" "Critical issue" .critical []] 1 = 100
          ∧ determineSecurityPosture
              (calculateRiskScore [mkTestVuln "C_1" "Critical issue" .critical []] 1)
              = "critical") :=
  ⟨Nat.one_pos, rfl,
    by simpa using
      calculateRiskScore_spec [] 1 (mkTestVuln "C_1" "Critical issue" .critical [])
        Nat.one_pos rfl⟩

/-- `summary` of a scan result, unfolded. -/
theorem scan_summary_def (catalogRules : List SecurityRule) (config : SecurityConfig)
    (options : SecurityScanOptions) (resources : List CloudResource)
    (now : String) (dur : Nat) :
    (scan catalogRules config options resources now dur).summary =
      (generateSummary
        (scanVulnerabilities (enabledRulesOf catalogRules config options)
          resources (scanContext options resources) options.provider now)
        resources.length).1 := rfl

/-- C5: the security posture partitions risk scores by the fixed thresholds
80/60/40/20, and a scan that produced no vulnerabilities reports risk score
0 and posture `excellent`. -/
theorem determineSecurityPosture_spec (s : Int) (catalogRules : List SecurityRule)
    (config : SecurityConfig) (options : SecurityScanOptions)
    (resources : List CloudResource) (now : String) (dur : Nat) :
    ((determineSecurityPosture s = "critical" ↔ 80 ≤ s)
        ∧ (determineSecurityPosture s = "poor" ↔ 60 ≤ s ∧ s < 80)
        ∧ (determineSecurityPosture s = "fair" ↔ 40 ≤ s ∧ s < 60)
        ∧ (determineSecurityPosture s = "good" ↔ 20 ≤ s ∧ s < 40)
        ∧ (determineSecurityPosture s = "excellent" ↔ s < 20))
      ∧ ((scan catalogRules config options resources now dur).vulnerabilities = [] →
          (scan catalogRules config options resources now dur).summary.riskScore = 0
            ∧ (scan catalogRules config options resources now dur).summary.securityPosture
                = "excellent") := by
  constructor
  · unfold determineSecurityPosture
    split_ifs with h1 h2 h3 h4 <;>
      refine ⟨?_, ?_, ?_, ?_, ?_⟩ <;>
      constructor <;>
      intro hh <;>
      first
        | rfl
        | omega
        | exact absurd hh (by decide)
  · intro hempty
    have hprod := sortBySeverityDesc_eq_nil
      ((scan_vulnerabilities_def catalogRules config options resources now dur).symm.trans
        hempty)
    rw [scan_summary_def catalogRules config options resources now dur, hprod]
    exact ⟨rfl, rfl⟩

/-- C5 witness: a scan of no resources with no rules yields no
vulnerabilities, risk score 0 and posture `excellent`. -/
theorem determineSecurityPosture_spec_witness :
    (scan [] emptyConfig sampleOptions [] "t0" 0).vulnerabilities = []
      ∧ ((scan [] emptyConfig sampleOptions [] "t0" 0).summary.riskScore = 0
          ∧ (scan [] emptyConfig sampleOptions [] "t0" 0).summary.securityPosture
              = "excellent") :=
  ⟨rfl, (determineSecurityPosture_spec 0 [] emptyConfig sampleOptions [] "t0" 0).2 rfl⟩

/-- Indexing a mapped list. -/
theorem get_map_eq {α β : Type} (f : α → β) (l : List α) (i : Nat)
    (h1 : i < (l.map f).length) (h2 : i < l.length) :
    (l.map f).get ⟨i, h1⟩ = f (l.get ⟨i, h2⟩) := by
  simp [List.get_eq_getElem, List.getElem_map]

/-- Rebuilding a string from its character list. -/
theorem stringMk_data (a : String) : String.mk a.data = a := by
  cases a
  rfl

/-- Truncation at the first underscore recovers an underscore-free prefix. -/
theorem truncAtUnderscore_append :
    ∀ (l m : List Char), '_' ∉ l → truncAtUnderscore (l ++ '_' :: m) = l := by
  intro l m
  induction l with
  | nil => intro; simp [truncAtUnderscore]
  | cons c cs ih =>
      intro hnm
      have hc : ¬ c = '_' := fun h => hnm (by rw [h]; exact List.mem_cons_self _ _)
      have hstep : truncAtUnderscore ((c :: cs) ++ '_' :: m)
          = if c = '_' then [] else c :: truncAtUnderscore (cs ++ '_' :: m) := rfl
      rw [hstep, if_neg hc, ih (fun h => hnm (List.mem_cons_of_mem _ h))]

/-- C6: the SARIF report has one result and one driver rule per
vulnerability; each result's `ruleId` (and each rule's `id`) is the
vulnerability id truncated at the first underscore; the result level maps
critical/high to `error`, medium to `warning` and low to `note`; and the
truncation really is the substring before the first underscore. -/
theorem generateSARIF_spec (result : SecurityScanResult) :
    ((generateSARIF result).results.length = result.vulnerabilities.length
        ∧ (generateSARIF result).rules.length = result.vulnerabilities.length)
      ∧ (∀ i (h1 : i < (generateSARIF result).results.length)
            (h2 : i < result.vulnerabilities.length),
          ((generateSARIF result).results.get ⟨i, h1⟩).ruleId
              = sarifRuleIdOf ((result.vulnerabilities.get ⟨i, h2⟩).id)
            ∧ ((generateSARIF result).results.get ⟨i, h1⟩).level
              = (match (result.vulnerabilities.get ⟨i, h2⟩).severity with
                 | .critical => "error"
                 | .high => "error"
                 | .medium => "warning"
                 | .low => "note"))
      ∧ (∀ i (h1 : i < (generateSARIF result).rules.length)
            (h2 : i < result.vulnerabilities.length),
          ((generateSARIF result).rules.get ⟨i, h1⟩).id
            = sarifRuleIdOf ((result.vulnerabilities.get ⟨i, h2⟩).id))
      ∧ (∀ a b : String, '_' ∉ a.data → sarifRuleIdOf (a ++ "_" ++ b) = a) := by
  refine ⟨⟨by simp [generateSARIF], by simp [generateSARIF]⟩, ?_, ?_, ?_⟩
  · intro i h1 h2
    constructor
    · simp only [generateSARIF] at h1 ⊢
      rw [get_map_eq _ _ i h1 h2]
    · simp only [generateSARIF] at h1 ⊢
      rw [get_map_eq _ _ i h1 h2]
      cases hsev : (result.vulnerabilities.get ⟨i, h2⟩).severity <;> rfl
  · intro i h1 h2
    simp only [generateSARIF] at h1 ⊢
    rw [get_map_eq _ _ i h1 h2]
  · intro a b hu
    have hdata : (a ++ "_" ++ b).data = a.data ++ '_' :: b.data := by
      rw [String.data_append, String.data_append]
      exact List.append_assoc a.data ['_'] b.data
    unfold sarifRuleIdOf
    rw [hdata, truncAtUnderscore_append a.data b.data hu, stringMk_data]

/-- C6 witness: the SARIF properties at a concrete one-vulnerability result
whose vulnerability id is `AWS-002_i-1`. -/
theorem generateSARIF_spec_witness :
    ((generateSARIF (mkTestResult [sarifVuln])).results.length
          = (mkTestResult [sarifVuln]).vulnerabilities.length
        ∧ (generateSARIF (mkTestResult [sarifVuln])).rules.length
          = (mkTestResult [sarifVuln]).vulnerabilities.length)
      ∧ (((generateSARIF (mkTestResult [sarifVuln])).results.get ⟨0, by decide⟩).ruleId
            = sarifRuleIdOf (((mkTestResult [sarifVuln]).vulnerabilities.get ⟨0, by decide⟩).id)
          ∧ ((generateSARIF (mkTestResult [sarifVuln])).results.get ⟨0, by decide⟩).level
            = (match ((mkTestResult [sarifVuln]).vulnerabilities.get ⟨0, by decide⟩).severity with
               | .critical => "error"
               | .high => "error"
               | .medium => "warning"
               | .low => "note"))
      ∧ ((generateSARIF (mkTestResult [sarifVuln])).rules.get ⟨0, by decide⟩).id
          = sarifRuleIdOf (((mkTestResult [sarifVuln]).vulnerabilities.get ⟨0, by decide⟩).id)
      ∧ sarifRuleIdOf ("AWS-002" ++ "_" ++ "i-1") = "AWS-002" :=
  ⟨(generateSARIF_spec (mkTestResult [sarifVuln])).1,
    (generateSARIF_spec (mkTestResult [sarifVuln])).2.1 0 (by decide) (by decide),
    (generateSARIF_spec (mkTestResult [sarifVuln])).2.2.1 0 (by decide) (by decide),
    (generateSARIF_spec (mkTestResult [sarifVuln])).2.2.2 "AWS-002" "i-1" (by decide)⟩

/-- C1: a `(resource, rule)` pair whose `check` throws is caught by the
engine: the scan still returns a complete `ScanResult` (the model's `scan`
is a total function exactly because `evalPair`'s `err` branch mirrors the
`catch` in the evaluation loop), and the returned vulnerability list
contains exactly the vulnerabilities produced by all the other
`(resource, rule)` evaluations — only the throwing pair's potential finding
is missing, never a finding of another rule on the same resource or of any
pair on another resource. -/
theorem scan_isolates_throwing_rule (catalogRules : List SecurityRule)
    (config : SecurityConfig) (options : SecurityScanOptions)
    (resources : List CloudResource) (now : String) (dur : Nat) (k : Nat)
    (hk : k < (evaluatedPairs (enabledRulesOf catalogRules config options) resources).length)
    (herr :
      ((evaluatedPairs (enabledRulesOf catalogRules config options) resources).get
          ⟨k, hk⟩).2.check
        ((evaluatedPairs (enabledRulesOf catalogRules config options) resources).get
          ⟨k, hk⟩).1
        { scanContext options resources with
            region :=
              ((evaluatedPairs (enabledRulesOf catalogRules config options) resources).get
                ⟨k, hk⟩).1.region }
        = .err) :
    ((scan catalogRules config options resources now dur).vulnerabilities).Perm
      (((evaluatedPairs (enabledRulesOf catalogRules config options) resources).eraseIdx
          k).filterMap
        (fun pr => evalPair pr.2 pr.1 (scanContext options resources) options.provider now)) := by
  have hnone :
      (fun pr : CloudResource × SecurityRule =>
          evalPair pr.2 pr.1 (scanContext options resources) options.provider now)
        ((evaluatedPairs (enabledRulesOf catalogRules config options) resources).get ⟨k, hk⟩)
        = none := by
    simp only [evalPair, herr]
  rw [scan_vulnerabilities_def,
    scanVulnerabilities_eq_filterMap (enabledRulesOf catalogRules config options)
      (scanContext options resources) options.provider now resources,
    filterMap_eraseIdx_of_none _ k hk _ hnone]
  exact sortBySeverityDesc_perm _

/-- C1 witness: in a scan whose second `(resource, rule)` pair throws, the
returned list contains exactly the findings of the remaining pair. -/
theorem scan_isolates_throwing_rule_witness :
    ((scan [okRule, errRule] emptyConfig sampleOptions [sampleResource] "t0"
        5).vulnerabilities).Perm
      (((evaluatedPairs (enabledRulesOf [okRule, errRule] emptyConfig sampleOptions)
          [sampleResource]).eraseIdx 1).filterMap
        (fun pr => evalPair pr.2 pr.1 (scanContext sampleOptions [sampleResource])
          sampleOptions.provider "t0")) :=
  scan_isolates_throwing_rule [okRule, errRule] emptyConfig sampleOptions [sampleResource]
    "t0" 5 1 (by decide) (by decide)

/-- C2 counterexample: with a low-severity rule ahead of a critical rule in
the catalog, the evaluation loop produces the low finding first, but the
returned `vulnerabilities` field is the severity-sorted list — the field is
not in resource-discovery/catalog evaluation order, refuting the claim as
stated. -/
theorem scan_order_counterexample :
    (scan [lowRule, critRule] emptyConfig sampleOptions [sampleResource] "t0"
        5).vulnerabilities
      ≠ scanVulnerabilities (enabledRulesOf [lowRule, critRule] emptyConfig sampleOptions)
          [sampleResource] (scanContext sampleOptions [sampleResource])
          sampleOptions.provider "t0" := by
  decide

/-- C2 (amended): the returned `vulnerabilities` field is the in-place
severity sort of the single-threaded evaluation-loop order (resources in
discovery order, rules in catalog order): a permutation of the loop order,
pairwise sorted by non-increasing severity rank, and stable — for every
severity class, the subsequence of that class equals the loop order's, as
ES2019 guarantees for `Array.prototype.sort` with this comparator.  The
three properties determine the list uniquely, and the output is a pure
function of the scan inputs, hence deterministic. -/
theorem scan_vulnerabilities_sorted_perm (catalogRules : List SecurityRule)
    (config : SecurityConfig) (options : SecurityScanOptions)
    (resources : List CloudResource) (now : String) (dur : Nat) :
    ((scan catalogRules config options resources now dur).vulnerabilities).Perm
        (scanVulnerabilities (enabledRulesOf catalogRules config options) resources
          (scanContext options resources) options.provider now)
      ∧ ((scan catalogRules config options resources now dur).vulnerabilities).Pairwise
          (fun a b => severityRank b.severity ≤ severityRank a.severity)
      ∧ (∀ sev : SecuritySeverity,
          ((scan catalogRules config options resources now dur).vulnerabilities).filter
              (fun w => w.severity == sev)
            = (scanVulnerabilities (enabledRulesOf catalogRules config options) resources
                (scanContext options resources) options.provider now).filter
                (fun w => w.severity == sev)) := by
  rw [scan_vulnerabilities_def]
  exact ⟨sortBySeverityDesc_perm _, sortBySeverityDesc_pairwise _,
    fun sev => filter_sortBySeverityDesc sev _⟩

/-- C8: when the scan is invoked with `options.severity = [critical]`, every
vulnerability in the returned result has severity `critical`: the severity
filter keeps only critical rules and each vulnerability inherits its rule's
severity. -/
theorem scan_critical_filter (catalogRules : List SecurityRule)
    (config : SecurityConfig) (options : SecurityScanOptions)
    (resources : List CloudResource) (now : String) (dur : Nat)
    (hsev : options.severity = some [.critical]) :
    ∀ i (h : i < (scan catalogRules config options resources now dur).vulnerabilities.length),
      ((scan catalogRules config options resources now dur).vulnerabilities.get
          ⟨i, h⟩).severity = .critical := by
  intro i h
  have hmem : (scan catalogRules config options resources now dur).vulnerabilities.get ⟨i, h⟩
      ∈ (scan catalogRules config options resources now dur).vulnerabilities :=
    List.get_mem _ i h
  have hmem2 : (scan catalogRules config options resources now dur).vulnerabilities.get ⟨i, h⟩
      ∈ scanVulnerabilities (enabledRulesOf catalogRules config options) resources
          (scanContext options resources) options.provider now :=
    (sortBySeverityDesc_perm _).mem_iff.1 hmem
  rcases mem_scanVulnerabilities hmem2 with ⟨resource, rule, f, _, hrule, _, hveq⟩
  rw [hveq]
  show rule.severity = .critical
  have hrule2 : rule ∈ getEnabledRules catalogRules options.provider (some [.critical])
      options.categories config := by
    rw [← hsev]
    exact hrule
  exact getEnabledRules_critical hrule2

/-- C8 witness: a concrete scan under `severity = [critical]` returns one
vulnerability and it is critical. -/
theorem scan_critical_filter_witness :
    criticalOnlyOptions.severity = some [.critical]
      ∧ 0 < (scan [critRule, lowRule] emptyConfig criticalOnlyOptions [sampleResource]
              "t0" 5).vulnerabilities.length
      ∧ ((scan [critRule, lowRule] emptyConfig criticalOnlyOptions [sampleResource]
              "t0" 5).vulnerabilities.get ⟨0, by decide⟩).severity = .critical :=
  ⟨rfl, by decide,
    scan_critical_filter [critRule, lowRule] emptyConfig criticalOnlyOptions
      [sampleResource] "t0" 5 rfl 0 (by decide)⟩

/-- No built-in rule populates `remediation.automated`. -/
theorem getAllRules_automated_none {c1 c2 c3 c4 c5 c6 c7 c8 c9 : RuleCheck}
    {rule : SecurityRule}
    (h : rule ∈ getAllRules c1 c2 c3 c4 c5 c6 c7 c8 c9) :
    rule.remediation.automated = none := by
  simp only [getAllRules, getAWSRules, getAzureRules, getGCPRules, getMultiCloudRules,
    List.mem_append, List.mem_cons, List.not_mem_nil, or_false, or_assoc] at h
  rcases h with h | h | h | h | h | h | h | h | h <;> subst h <;> rfl

/-- In the built-in catalog, the rule with id `MULTI-001` (equivalently,
with name `Unencrypted Storage`) has exactly the three glob-like resource
type strings. -/
theorem getAllRules_multi_resourceTypes {c1 c2 c3 c4 c5 c6 c7 c8 c9 : RuleCheck}
    {rule : SecurityRule}
    (h : rule ∈ getAllRules c1 c2 c3 c4 c5 c6 c7 c8 c9) :
    (rule.id = "MULTI-001" → rule.resourceTypes = ["*_storage*", "*_bucket*", "*_disk*"])
      ∧ (rule.name = "Unencrypted Storage" →
          rule.resourceTypes = ["*_storage*", "*_bucket*", "*_disk*"]) := by
  simp only [getAllRules, getAWSRules, getAzureRules, getGCPRules, getMultiCloudRules,
    List.mem_append, List.mem_cons, List.not_mem_nil, or_false, or_assoc] at h
  rcases h with h | h | h | h | h | h | h | h | h <;> subst h <;>
    constructor <;> intro hx <;>
    first
      | rfl
      | simp at hx

/-- Component facts for a pair visited by the evaluation loop. -/
theorem mem_evaluatedPairs {enabledRules : List SecurityRule}
    {resources : List CloudResource} {pr : CloudResource × SecurityRule}
    (h : pr ∈ evaluatedPairs enabledRules resources) :
    pr.1 ∈ resources ∧ pr.2 ∈ enabledRules ∧
      (pr.2.resourceTypes.contains pr.1.type || pr.2.resourceTypes.contains "*") = true := by
  rcases mem_concatMap.1 h with ⟨resource, hres, hpr⟩
  rcases List.mem_map.1 hpr with ⟨rule, hrule, heq⟩
  have happ := List.mem_filter.1 hrule
  cases heq
  exact ⟨hres, happ.1, happ.2⟩

/-- Strings passing the membership test against MULTI-001's resource types
are literally one of the three glob-like entries. -/
theorem multi_types_of_contains {t : String}
    (h : ((["*_storage*", "*_bucket*", "*_disk*"] : List String).contains t
        || (["*_storage*", "*_bucket*", "*_disk*"] : List String).contains "*") = true) :
    t = "*_storage*" ∨ t = "*_bucket*" ∨ t = "*_disk*" := by
  have hstar : ((["*_storage*", "*_bucket*", "*_disk*"] : List String).contains "*") = false := by
    decide
  rw [hstar, Bool.or_false] at h
  have hmem : t ∈ (["*_storage*", "*_bucket*", "*_disk*"] : List String) :=
    List.elem_iff.1 h
  simpa using hmem

/-- C9: the applicability test is exact string membership of the resource's
type (or of the literal `"*"`), so the built-in MULTI-001 rule — whose
`resourceTypes` are the glob-like literals — is evaluated only against
resources whose type is literally `*_storage*`, `*_bucket*` or `*_disk*`,
and every vulnerability it produces carries one of those types; a concrete
provider type such as `aws_s3_bucket` never reaches it. -/
theorem multi001_literal_applicability (c1 c2 c3 c4 c5 c6 c7 c8 c9 : RuleCheck)
    (config : SecurityConfig) (options : SecurityScanOptions)
    (resources : List CloudResource) (now : String) (dur : Nat) :
    (∀ i (h : i < (evaluatedPairs
          (enabledRulesOf (getAllRules c1 c2 c3 c4 c5 c6 c7 c8 c9) config options)
          resources).length),
        ((evaluatedPairs
            (enabledRulesOf (getAllRules c1 c2 c3 c4 c5 c6 c7 c8 c9) config options)
            resources).get ⟨i, h⟩).2.id = "MULTI-001" →
          ((evaluatedPairs
              (enabledRulesOf (getAllRules c1 c2 c3 c4 c5 c6 c7 c8 c9) config options)
              resources).get ⟨i, h⟩).1.type = "*_storage*"
            ∨ ((evaluatedPairs
                (enabledRulesOf (getAllRules c1 c2 c3 c4 c5 c6 c7 c8 c9) config options)
                resources).get ⟨i, h⟩).1.type = "*_bucket*"
            ∨ ((evaluatedPairs
                (enabledRulesOf (getAllRules c1 c2 c3 c4 c5 c6 c7 c8 c9) config options)
                resources).get ⟨i, h⟩).1.type = "*_disk*")
      ∧ (∀ i (h : i < (scan (getAllRules c1 c2 c3 c4 c5 c6 c7 c8 c9) config options
            resources now dur).vulnerabilities.length),
          ((scan (getAllRules c1 c2 c3 c4 c5 c6 c7 c8 c9) config options resources now
              dur).vulnerabilities.get ⟨i, h⟩).title = "Unencrypted Storage" →
            ((scan (getAllRules c1 c2 c3 c4 c5 c6 c7 c8 c9) config options resources now
                dur).vulnerabilities.get ⟨i, h⟩).resourceType = "*_storage*"
              ∨ ((scan (getAllRules c1 c2 c3 c4 c5 c6 c7 c8 c9) config options resources now
                  dur).vulnerabilities.get ⟨i, h⟩).resourceType = "*_bucket*"
              ∨ ((scan (getAllRules c1 c2 c3 c4 c5 c6 c7 c8 c9) config options resources now
                  dur).vulnerabilities.get ⟨i, h⟩).resourceType = "*_disk*") := by
  constructor
  · intro i h hid
    have hp := List.get_mem
      (evaluatedPairs (enabledRulesOf (getAllRules c1 c2 c3 c4 c5 c6 c7 c8 c9) config options)
        resources) i h
    rcases mem_evaluatedPairs hp with ⟨_, hrule, happ⟩
    have hmeta := (getAllRules_multi_resourceTypes (getEnabledRules_subset hrule)).1 hid
    rw [hmeta] at happ
    exact multi_types_of_contains happ
  · intro i h htitle
    have hmem := List.get_mem
      (scan (getAllRules c1 c2 c3 c4 c5 c6 c7 c8 c9) config options resources now
        dur).vulnerabilities i h
    have hmem2 : (scan (getAllRules c1 c2 c3 c4 c5 c6 c7 c8 c9) config options resources now
        dur).vulnerabilities.get ⟨i, h⟩
        ∈ scanVulnerabilities
            (enabledRulesOf (getAllRules c1 c2 c3 c4 c5 c6 c7 c8 c9) config options)
            resources (scanContext options resources) options.provider now :=
      (sortBySeverityDesc_perm _).mem_iff.1 hmem
    rcases mem_scanVulnerabilities hmem2 with ⟨resource, rule, f, _, hrule, happ, hveq⟩
    have hname : rule.name = "Unencrypted Storage" := by
      rw [hveq] at htitle
      exact htitle
    have hmeta := (getAllRules_multi_resourceTypes (getEnabledRules_subset hrule)).2 hname
    rw [hmeta] at happ
    have htype := multi_types_of_contains happ
    rw [hveq]
    exact htype

/-- C9 witness: a resource whose type is the literal `*_bucket*` does reach
MULTI-001, and the produced finding carries one of the three literals. -/
theorem multi001_literal_applicability_witness :
    (((evaluatedPairs
        (enabledRulesOf
          (getAllRules alwaysFailCheck alwaysFailCheck alwaysFailCheck alwaysFailCheck
            alwaysFailCheck alwaysFailCheck alwaysFailCheck alwaysFailCheck alwaysFailCheck)
          emptyConfig sampleOptions)
        [globResource]).get ⟨0, by decide⟩).1.type = "*_storage*"
      ∨ ((evaluatedPairs
          (enabledRulesOf
            (getAllRules alwaysFailCheck alwaysFailCheck alwaysFailCheck alwaysFailCheck
              alwaysFailCheck alwaysFailCheck alwaysFailCheck alwaysFailCheck alwaysFailCheck)
            emptyConfig sampleOptions)
          [globResource]).get ⟨0, by decide⟩).1.type = "*_bucket*"
      ∨ ((evaluatedPairs
          (enabledRulesOf
            (getAllRules alwaysFailCheck alwaysFailCheck alwaysFailCheck alwaysFailCheck
              alwaysFailCheck alwaysFailCheck alwaysFailCheck alwaysFailCheck alwaysFailCheck)
            emptyConfig sampleOptions)
          [globResource]).get ⟨0, by decide⟩).1.type = "*_disk*") :=
  (multi001_literal_applicability alwaysFailCheck alwaysFailCheck alwaysFailCheck
      alwaysFailCheck alwaysFailCheck alwaysFailCheck alwaysFailCheck alwaysFailCheck
      alwaysFailCheck emptyConfig sampleOptions [globResource] "t0" 5).1
    0 (by decide) (by decide)

/-- `quickWins` of a summary, unfolded. -/
theorem generateSummary_quickWins (vulns : List SecurityVulnerability) (n : Nat) :
    (generateSummary vulns n).1.quickWins =
      ((sortBySeverityDesc vulns).filter (fun v =>
        match v.remediation.automated with
        | some l => decide (0 < l.length)
        | none => false)).take 5 := rfl

/-- C10: every built-in rule's remediation sets `automatable` but never the
`automated` string list, while `quickWins` keeps only vulnerabilities whose
`remediation.automated` is a non-empty list; hence every scan over the
built-in catalog — whatever its check predicates return — has an empty
`summary.quickWins`. -/
theorem builtin_quickWins_empty (c1 c2 c3 c4 c5 c6 c7 c8 c9 : RuleCheck)
    (config : SecurityConfig) (options : SecurityScanOptions)
    (resources : List CloudResource) (now : String) (dur : Nat) :
    (scan (getAllRules c1 c2 c3 c4 c5 c6 c7 c8 c9) config options resources now
      dur).summary.quickWins = [] := by
  rw [scan_summary_def, generateSummary_quickWins]
  have hall : ∀ v ∈ sortBySeverityDesc
      (scanVulnerabilities
        (enabledRulesOf (getAllRules c1 c2 c3 c4 c5 c6 c7 c8 c9) config options)
        resources (scanContext options resources) options.provider now),
      ¬ ((fun v : SecurityVulnerability =>
          match v.remediation.automated with
          | some l => decide (0 < l.length)
          | none => false) v = true) := by
    intro v hv
    have hv2 := (sortBySeverityDesc_perm _).mem_iff.1 hv
    rcases mem_scanVulnerabilities hv2 with ⟨resource, rule, f, _, hrule, _, hveq⟩
    have hauto : rule.remediation.automated = none :=
      getAllRules_automated_none (getEnabledRules_subset hrule)
    rw [hveq]
    show ¬ ((match (mkVulnerability rule resource f options.provider now).remediation.automated with
            | some l => decide (0 < l.length)
            | none => false) = true)
    have hsame : (mkVulnerability rule resource f options.provider now).remediation.automated
        = rule.remediation.automated := rfl
    rw [hsame, hauto]
    simp
  rw [List.filter_eq_nil_iff.2 hall]
  rfl

/-- Looking up after appending a fresh binding at the tail. -/
theorem assocLookup_append_single {α : Type} :
    ∀ (m : List (String × α)) (nm k : String) (v : α),
      assocLookup (m ++ [(nm, v)]) k =
        (match assocLookup m k with
         | some w => some w
         | none => if nm == k then some v else none)
  | [], _, _, _ => rfl
  | (k', v') :: rest, nm, k, v => by
      simp only [List.cons_append, assocLookup]
      by_cases hk : (k' == k) = true
      · rw [if_pos hk, if_pos hk]
      · rw [if_neg hk, if_neg hk]
        exact assocLookup_append_single rest nm k v

/-- Looking up after updating a key that is present. -/
theorem assocLookup_assocUpdate {α : Type} :
    ∀ (m : List (String × α)) (nm k : String) (v : α),
      (assocLookup m nm).isSome = true →
      assocLookup (assocUpdate m nm v) k =
        if nm == k then some v else assocLookup m k
  | [], nm, k, v => by
      intro h
      exact Bool.noConfusion h
  | (k', v') :: rest, nm, k, v => by
      intro hsome
      simp only [assocLookup, assocUpdate] at hsome ⊢
      by_cases h1 : (k' == nm) = true
      · rw [if_pos h1]
        have e1 : k' = nm := by simpa using h1
        simp only [assocLookup]
        by_cases h2 : (k' == k) = true
        · have e2 : k' = k := by simpa using h2
          have hnm : (nm == k) = true := by simpa using e1.symm.trans e2
          rw [if_pos h2, if_pos hnm]
        · have hnm : ¬ (nm == k) = true := by
            intro hcon
            have hnmk : nm = k := by simpa using hcon
            exact h2 (by simpa using e1.trans hnmk)
          rw [if_neg h2, if_neg hnm, if_neg h2]
      · rw [if_neg h1] at hsome
        rw [if_neg h1]
        simp only [assocLookup]
        by_cases h2 : (k' == k) = true
        · have e2 : k' = k := by simpa using h2
          have hne : ¬ (nm == k) = true := by
            intro hcon
            have hnmk : nm = k := by simpa using hcon
            exact h1 (by simpa using e2.trans hnmk.symm)
          rw [if_pos h2, if_neg hne, if_pos h2]
        · rw [if_neg h2, if_neg h2]
          exact assocLookup_assocUpdate rest nm k v hsome

/-- One framework bump, seen through `assocLookup`. -/
theorem assocLookup_bumpFramework (m : List (String × FrameworkStatus)) (nm k : String) :
    assocLookup (bumpFramework m nm) k =
      if nm == k then
        some (match assocLookup m nm with
              | some st => addChecks st 1
              | none => countStatus 1)
      else assocLookup m k := by
  unfold bumpFramework
  cases hm : assocLookup m nm with
  | none =>
      rw [assocLookup_append_single]
      by_cases hk : (nm == k) = true
      · have ek : nm = k := by simpa using hk
        subst ek
        rw [hm, if_pos hk, if_pos hk]
        rfl
      · cases hmk : assocLookup m k <;> simp [hk]
  | some st =>
      rw [assocLookup_assocUpdate m nm k _ (by rw [hm]; rfl)]
      rfl

/-- Adding onto a fresh all-failures record. -/
theorem addChecks_countStatus (a b : Int) :
    addChecks (countStatus a) b = countStatus (a + b) := rfl

/-- Two successive counter bumps combine. -/
theorem addChecks_addChecks (st : FrameworkStatus) (a b : Int) :
    addChecks (addChecks st a) b = addChecks st (a + b) := by
  unfold addChecks
  congr 1 <;> ring

/-- The accumulated counters after folding a list of framework names:
each name's record counts its occurrences, in both `totalChecks` and
`failedChecks`. -/
theorem assocLookup_foldl_bump :
    ∀ (names : List String) (m : List (String × FrameworkStatus)) (k : String),
      assocLookup (names.foldl bumpFramework m) k =
        (match assocLookup m k with
         | some st => some (addChecks st (names.count k : Int))
         | none =>
             if names.count k = 0 then none
             else some (countStatus (names.count k : Int)))
  | [], m, k => by
      cases hmk : assocLookup m k <;>
        simp [List.foldl_nil, hmk, addChecks, countStatus, List.count_nil]
  | nm :: rest, m, k => by
      simp only [List.foldl_cons]
      rw [assocLookup_foldl_bump rest (bumpFramework m nm) k, assocLookup_bumpFramework,
        List.count_cons]
      by_cases hk : (k == nm) = true
      · have ek : k = nm := by simpa using hk
        subst ek
        rw [if_pos hk, if_pos hk]
        cases ho : assocLookup m k with
        | none =>
            show some (addChecks (countStatus 1) (rest.count k : Int))
                = if rest.count k + 1 = 0 then none
                  else some (countStatus ((rest.count k + 1 : Nat) : Int))
            rw [if_neg (by omega), addChecks_countStatus]
            have hcast : (1 : Int) + (rest.count k : Int) = ((rest.count k + 1 : Nat) : Int) := by
              push_cast
              ring
            rw [hcast]
        | some st =>
            show some (addChecks (addChecks st 1) (rest.count k : Int))
                = some (addChecks st ((rest.count k + 1 : Nat) : Int))
            rw [addChecks_addChecks]
            have hcast : (1 : Int) + (rest.count k : Int) = ((rest.count k + 1 : Nat) : Int) := by
              push_cast
              ring
            rw [hcast]
      · have hk' : ¬ (nm == k) = true := by
          intro h
          exact hk (by simpa using ((by simpa using h : nm = k).symm))
        rw [if_neg hk', if_neg hk']
        simp only [Nat.add_zero]

/-- The accumulated counters when the fold starts from the empty object. -/
theorem assocLookup_foldl_bump_nil (names : List String) (k : String) :
    assocLookup (names.foldl bumpFramework []) k =
      if names.count k = 0 then none
      else some (countStatus (names.count k : Int)) := by
  rw [assocLookup_foldl_bump]
  rfl

/-- Lookup commutes with the finalize pass. -/
theorem assocLookup_map_finalize :
    ∀ (m : List (String × FrameworkStatus)) (k : String),
      assocLookup (m.map (fun e => (e.1, finalizeFramework e.2))) k
        = (assocLookup m k).map finalizeFramework
  | [], _ => rfl
  | (k', v') :: rest, k => by
      simp only [List.map_cons, assocLookup]
      by_cases hk : (k' == k) = true
      · rw [if_pos hk, if_pos hk]
        rfl
      · rw [if_neg hk, if_neg hk]
        exact assocLookup_map_finalize rest k

/-- The nested compliance fold flattens to a fold over all framework names. -/
theorem complianceFold_eq_foldl_names :
    ∀ (vulns : List SecurityVulnerability) (m : List (String × FrameworkStatus)),
      vulns.foldl
          (fun m' v => v.complianceFrameworks.foldl (fun m'' fw => bumpFramework m'' fw.name) m')
          m
        = (frameworkNames vulns).foldl bumpFramework m
  | [], _ => rfl
  | v :: vs, m => by
      simp only [List.foldl_cons, frameworkNames, concatMap, List.foldl_append]
      rw [complianceFold_eq_foldl_names vs, List.foldl_map]
      rfl

/-- Finalizing an all-failures counter record is the identity: the score of
`passedChecks = 0` is `round(0 / total * 100) = 0`. -/
theorem finalizeFramework_all_failed (c : Int) :
    finalizeFramework (countStatus c) = countStatus c := by
  unfold finalizeFramework countStatus
  simp [jsRound_zero]

/-- The compliance status record of any framework name, in closed form. -/
theorem generateComplianceStatus_lookup (vulns : List SecurityVulnerability) (k : String) :
    assocLookup (generateComplianceStatus vulns) k =
      if frameworkEntryCount vulns k = 0 then none
      else some (countStatus (frameworkEntryCount vulns k : Int)) := by
  unfold generateComplianceStatus
  rw [assocLookup_map_finalize, complianceFold_eq_foldl_names, assocLookup_foldl_bump_nil]
  by_cases h0 : (frameworkNames vulns).count k = 0
  · rw [if_pos h0, if_pos (show frameworkEntryCount vulns k = 0 from h0)]
    rfl
  · rw [if_neg h0, if_neg (show ¬ frameworkEntryCount vulns k = 0 from h0)]
    exact congrArg some (finalizeFramework_all_failed _)

/-- C7 counterexample: the claim says `totalChecks` equals the number of
vulnerabilities referencing the framework.  A single vulnerability listing
framework `F` under two requirements bumps the counters once per entry: the
stored record carries `totalChecks = failedChecks = 2`, while only one
vulnerability references `F`. -/
theorem generateComplianceStatus_counterexample :
    assocLookup (generateComplianceStatus [dupFrameworkVuln]) "F"
        = some { totalChecks := 2, passedChecks := 0, failedChecks := 2, score := 0 }
      ∧ referencingVulnCount [dupFrameworkVuln] "F" = 1
      ∧ assocLookup (generateComplianceStatus [dupFrameworkVuln]) "F"
          ≠ some { totalChecks := (referencingVulnCount [dupFrameworkVuln] "F" : Int),
                   passedChecks := 0,
                   failedChecks := (referencingVulnCount [dupFrameworkVuln] "F" : Int),
                   score := 0 } := by
  have h2 : frameworkEntryCount [dupFrameworkVuln] "F" = 2 := by decide
  have hlook := generateComplianceStatus_lookup [dupFrameworkVuln] "F"
  rw [h2] at hlook
  rw [if_neg (by omega)] at hlook
  refine ⟨by rw [hlook]; rfl, by decide, ?_⟩
  rw [hlook, show referencingVulnCount [dupFrameworkVuln] "F" = 1 from by decide]
  decide

/-- C7 (amended): for every framework name referenced at least once, the
compliance status maps it to counters where `totalChecks` and `failedChecks`
both equal the number of `(vulnerability, framework entry)` pairs naming it
— which is the number of referencing vulnerabilities whenever no
vulnerability lists the same framework name twice — while `passedChecks`
is 0 and `score = round(0 / totalChecks * 100) = 0`. -/
theorem generateComplianceStatus_counts (vulns : List SecurityVulnerability)
    (name : String) (h : 0 < frameworkEntryCount vulns name) :
    assocLookup (generateComplianceStatus vulns) name =
      some { totalChecks := (frameworkEntryCount vulns name : Int), passedChecks := 0,
             failedChecks := (frameworkEntryCount vulns name : Int), score := 0 } := by
  rw [generateComplianceStatus_lookup, if_neg (by omega)]
  rfl

/-- C7 witness: the amended counters at the concrete duplicate-framework
vulnerability. -/
theorem generateComplianceStatus_counts_witness :
    0 < frameworkEntryCount [dupFrameworkVuln] "F"
      ∧ assocLookup (generateComplianceStatus [dupFrameworkVuln]) "F"
          = some { totalChecks := (frameworkEntryCount [dupFrameworkVuln] "F" : Int),
                   passedChecks := 0,
                   failedChecks := (frameworkEntryCount [dupFrameworkVuln] "F" : Int),
                   score := 0 } :=
  ⟨by decide, generateComplianceStatus_counts [dupFrameworkVuln] "F" (by decide)⟩

end Optimisely
